import Mathlib

/-!
Verification of the KPP-Test crawl engine against its specification.

The Python sources under `scripts/` are shallowly embedded here:

* `scripts/data_merge.py` — reconciliation engine (`calculate_question_hash`,
  `get_sort_key`, `convert_to_final_format`, `merge_questions`);
* `scripts/capture.py` — bounds parsing (`get_element_bounds`, `get_center`),
  element location (`find_next_button`, `find_options`,
  `_find_options_in_page`), page classification (`is_in_question_page`),
  extraction (`extract_question_text`, `extract_options_text`,
  `extract_question_number_from_page`), answer detection
  (`check_option_background_color`, `get_option_label`,
  `detect_correct_answer`), the per-item capture procedure
  (`capture_question`) and the crawl loop (`run`, `switch_to_next_part`).

Python strings are modelled by `String`; the handful of `str` methods the
sources use (`split`, `strip`, `lower`, `upper`, `startswith`, `in`,
`replace`, `join`, `isdigit`, `int(...)`) are re-implemented below with
Python's semantics (restricted to ASCII case folding / digit classes, which
covers every literal the sources apply them to).  Machine integers are `Int`
(Python ints are unbounded, so no wrap-around modelling is needed); MD5 is
implemented in full over byte lists so that digests are computable facts.

The interactive surface (device screen) is modelled as an environment: a
time-indexed sequence of UI snapshots plus, for each snapshot, the average
colour that sampling a bounding box on the current frame would produce.
Every interaction (`uiautomator dump`, screenshot, tap) advances the time.
-/

/-! ### Python string primitives -/

/-- Python whitespace for `str.strip` / `str.split()` (ASCII part). -/
def isPySpace (c : Char) : Bool :=
  c = ' ' || c = '\t' || c = '\n' || c = '\x0d' || c = '\x0b' || c = '\x0c'

/-- Python `str.strip()` with no argument. -/
def pyStrip (s : String) : String :=
  String.mk (((s.data.dropWhile isPySpace).reverse.dropWhile isPySpace).reverse)

/-- Python `str.lower()` (ASCII). -/
def pyLower (s : String) : String := String.mk (s.data.map Char.toLower)

/-- Python `str.upper()` (ASCII). -/
def pyUpper (s : String) : String := String.mk (s.data.map Char.toUpper)

/-- Substring test on character lists (`needle in hay`). -/
def subIn (needle : List Char) : List Char → Bool
  | [] => needle.isEmpty
  | c :: rest => needle.isPrefixOf (c :: rest) || subIn needle rest

/-- Python `needle in hay` for strings. -/
def pyIn (needle hay : String) : Bool := subIn needle.data hay.data

/-- Python `s.startswith(p)`. -/
def pyStartswith (s p : String) : Bool := p.data.isPrefixOf s.data

/-- Python `s.endswith(p)`. -/
def pyEndswith (s p : String) : Bool := p.data.isSuffixOf s.data

/-- Python `s.split(sep)` for a one-character separator, on char lists. -/
def splitCh (sep : Char) : List Char → List (List Char)
  | [] => [[]]
  | c :: rest =>
    if c = sep then [] :: splitCh sep rest
    else
      match splitCh sep rest with
      | h :: t => (c :: h) :: t
      | [] => [[c]]

/-- Python `s.split(sep)` for a one-character separator, on strings. -/
def pySplitCh (sep : Char) (s : String) : List String :=
  (splitCh sep s.data).map String.mk

/-- Python `s.split("][")` (the two-character separator used for bounds). -/
def splitBrk : List Char → List (List Char)
  | ']' :: '[' :: rest => [] :: splitBrk rest
  | c :: rest =>
    match splitBrk rest with
    | h :: t => (c :: h) :: t
    | [] => [[c]]
  | [] => [[]]

/-- Python `s.replace(c, "")` for a one-character pattern. -/
def removeCh (c : Char) (s : String) : String :=
  String.mk (s.data.filter (fun x => x ≠ c))

/-- Python `str.isdigit` on a char list (ASCII digits). -/
def allDigits (l : List Char) : Bool := !l.isEmpty && l.all Char.isDigit

/-- Python `s.isdigit()` (ASCII digits; nonempty). -/
def pyIsDigit (s : String) : Bool := allDigits s.data

/-- Numeric value of a list of decimal digit characters. -/
def digitsVal (l : List Char) : Nat :=
  l.foldl (fun a c => 10 * a + (c.toNat - 48)) 0

/-- Python `int(s)`: strip whitespace, optional sign, decimal digits.
(Underscore separators and non-ASCII digits, which Python also accepts,
never occur in the data this repository parses.) -/
def parsePyInt (s : String) : Option Int :=
  let t := (pyStrip s).data
  if t.headD ' ' = '-' then
    if allDigits t.tail then some (-(digitsVal t.tail : Int)) else none
  else if t.headD ' ' = '+' then
    if allDigits t.tail then some ((digitsVal t.tail : Int)) else none
  else if allDigits t then some ((digitsVal t : Int)) else none

/-- Whitespace tokenisation: Python `s.split()` with no argument. -/
def wsTokensAux : List Char → List Char → List (List Char)
  | [], acc => if acc.isEmpty then [] else [acc.reverse]
  | c :: rest, acc =>
    if isPySpace c then
      if acc.isEmpty then wsTokensAux rest [] else acc.reverse :: wsTokensAux rest []
    else wsTokensAux rest (c :: acc)

/-- Python `" ".join(s.split())` — collapse whitespace runs, trim. -/
def pyCollapseWs (s : String) : String :=
  String.intercalate (" ") ((wsTokensAux s.data []).map String.mk)

/-- Decimal digit character. -/
def digitChar (n : Nat) : Char := Char.ofNat (48 + n)

/-- Decimal digits of `n`, most significant first (`fuel ≥` digit count). -/
def natDigits : Nat → Nat → List Char
  | 0, _ => []
  | fuel + 1, n =>
    if n < 10 then [digitChar n]
    else natDigits fuel (n / 10) ++ [digitChar (n % 10)]

/-- Python `f"{n:03d}"` for a nonnegative value. -/
def format03 (n : Nat) : String :=
  let ds := natDigits (n + 1) n
  String.mk (List.replicate (3 - ds.length) '0' ++ ds)

/-- Python `f"{n:02d}"` for a nonnegative value (image-file indices). -/
def format02 (n : Nat) : String :=
  let ds := natDigits (n + 1) n
  String.mk (List.replicate (2 - ds.length) '0' ++ ds)

/-- Python `f"{n:03d}"` for an `int` (sign counts toward the width). -/
def formatInt03 (n : Int) : String :=
  if n < 0 then
    let ds := natDigits (n.natAbs + 1) n.natAbs
    String.mk ('-' :: List.replicate (2 - ds.length) '0' ++ ds)
  else format03 n.natAbs

/-! ### MD5 (`hashlib.md5(...).hexdigest()`), over UTF-8 byte lists -/

def M32 : Nat := 4294967296

def add32 (a b : Nat) : Nat := (a + b) % M32

def not32 (a : Nat) : Nat := Nat.xor 4294967295 a

def rotl32 (x s : Nat) : Nat :=
  Nat.lor ((x <<< s) % M32) (x >>> (32 - s))

/-- UTF-8 encoding of one code point (Python `str.encode("utf-8")`). -/
def utf8Bytes (c : Nat) : List Nat :=
  if c < 128 then [c]
  else if c < 2048 then [192 + c / 64, 128 + c % 64]
  else if c < 65536 then [224 + c / 4096, 128 + (c / 64) % 64, 128 + c % 64]
  else [240 + c / 262144, 128 + (c / 4096) % 64, 128 + (c / 64) % 64, 128 + c % 64]

/-- UTF-8 bytes of a string. -/
def strBytes (s : String) : List Nat :=
  (s.data.map (fun c => utf8Bytes c.toNat)).flatten

/-- The 64 MD5 round constants `floor(2^32 * abs(sin(i+1)))`. -/
def md5K : List Nat :=
  [0xd76aa478, 0xe8c7b756, 0x242070db, 0xc1bdceee,
   0xf57c0faf, 0x4787c62a, 0xa8304613, 0xfd469501,
   0x698098d8, 0x8b44f7af, 0xffff5bb1, 0x895cd7be,
   0x6b901122, 0xfd987193, 0xa679438e, 0x49b40821,
   0xf61e2562, 0xc040b340, 0x265e5a51, 0xe9b6c7aa,
   0xd62f105d, 0x02441453, 0xd8a1e681, 0xe7d3fbc8,
   0x21e1cde6, 0xc33707d6, 0xf4d50d87, 0x455a14ed,
   0xa9e3e905, 0xfcefa3f8, 0x676f02d9, 0x8d2a4c8a,
   0xfffa3942, 0x8771f681, 0x6d9d6122, 0xfde5380c,
   0xa4beea44, 0x4bdecfa9, 0xf6bb4b60, 0xbebfbc70,
   0x289b7ec6, 0xeaa127fa, 0xd4ef3085, 0x04881d05,
   0xd9d4d039, 0xe6db99e5, 0x1fa27cf8, 0xc4ac5665,
   0xf4292244, 0x432aff97, 0xab9423a7, 0xfc93a039,
   0x655b59c3, 0x8f0ccc92, 0xffeff47d, 0x85845dd1,
   0x6fa87e4f, 0xfe2ce6e0, 0xa3014314, 0x4e0811a1,
   0xf7537e82, 0xbd3af235, 0x2ad7d2bb, 0xeb86d391]

/-- The MD5 per-round left-rotation amounts. -/
def md5S : List Nat :=
  [7, 12, 17, 22, 7, 12, 17, 22, 7, 12, 17, 22, 7, 12, 17, 22,
   5, 9, 14, 20, 5, 9, 14, 20, 5, 9, 14, 20, 5, 9, 14, 20,
   4, 11, 16, 23, 4, 11, 16, 23, 4, 11, 16, 23, 4, 11, 16, 23,
   6, 10, 15, 21, 6, 10, 15, 21, 6, 10, 15, 21, 6, 10, 15, 21]

/-- MD5 padding: `0x80`, zeros to 56 mod 64, 64-bit little-endian bit length. -/
def md5Pad (msg : List Nat) : List Nat :=
  let len := msg.length
  let padLen := (55 + 64 - len % 64) % 64 + 1
  let bitLen := (len * 8) % (2 ^ 64)
  msg ++ (128 :: List.replicate (padLen - 1) 0) ++
    ((List.range 8).map (fun i => (bitLen >>> (8 * i)) % 256))

/-- Split a byte list into 64-byte blocks (fuel-driven, kernel-reducible). -/
def chunks64 (fuel : Nat) (l : List Nat) : List (List Nat) :=
  match fuel, l with
  | 0, _ => []
  | _, [] => []
  | Nat.succ f, l => l.take 64 :: chunks64 f (l.drop 64)

/-- The sixteen little-endian 32-bit words of a 64-byte block. -/
def leWords (block : List Nat) : List Nat :=
  (List.range 16).map (fun j =>
    let b := fun i => (block.drop (4 * j + i)).headD 0
    b 0 + 256 * b 1 + 65536 * b 2 + 16777216 * b 3)

/-- One of the 64 MD5 rounds. -/
def md5Round (m : List Nat) (st : Nat × Nat × Nat × Nat) (i : Nat) :
    Nat × Nat × Nat × Nat :=
  let (a, b, c, d) := st
  let f :=
    if i < 16 then Nat.lor (Nat.land b c) (Nat.land (not32 b) d)
    else if i < 32 then Nat.lor (Nat.land d b) (Nat.land (not32 d) c)
    else if i < 48 then Nat.xor b (Nat.xor c d)
    else Nat.xor c (Nat.lor b (not32 d))
  let g :=
    if i < 16 then i
    else if i < 32 then (5 * i + 1) % 16
    else if i < 48 then (3 * i + 5) % 16
    else (7 * i) % 16
  let tmp := add32 (add32 (add32 f a) (md5K.getD i 0)) (m.getD g 0)
  (d, add32 b (rotl32 tmp (md5S.getD i 0)), b, c)

/-- Process one 64-byte block. -/
def md5Block (st : Nat × Nat × Nat × Nat) (block : List Nat) :
    Nat × Nat × Nat × Nat :=
  let m := leWords block
  let (a, b, c, d) := (List.range 64).foldl (md5Round m) st
  let (a0, b0, c0, d0) := st
  (add32 a0 a, add32 b0 b, add32 c0 c, add32 d0 d)

/-- Lower-case hex digit. -/
def hexChar (n : Nat) : Char :=
  if n < 10 then Char.ofNat (48 + n) else Char.ofNat (87 + n)

/-- Little-endian hex rendering of one 32-bit word. -/
def word2hex (w : Nat) : List Char :=
  ((List.range 4).map (fun i => [hexChar ((w >>> (8 * i + 4)) % 16),
                                 hexChar ((w >>> (8 * i)) % 16)])).flatten

/-- `hashlib.md5(bytes).hexdigest()`. -/
def md5Hex (msg : List Nat) : String :=
  let padded := md5Pad msg
  let blocks := chunks64 padded.length padded
  let (a, b, c, d) :=
    blocks.foldl md5Block (0x67452301, 0xefcdab89, 0x98badcfe, 0x10325476)
  String.mk (word2hex a ++ word2hex b ++ word2hex c ++ word2hex d)

/-! ### `scripts/data_merge.py` -/

/-- One entry of a shard record's `options` array (`data_merge.py` reads
`label`, `text`, `has_image`, `image` from it). -/
structure OptionData where
  label : String
  text : String
  has_image : Bool
  image : Option String
  deriving DecidableEq

/-- A shard `QuestionRecord`: the JSON object `capture_question` writes
(capture.py lines 1542-1553, minus the wall-clock `timestamp`) and
`data_merge.py` reads back.  `data_merge.py` only consumes `id`,
`question_text`, `options`, `correct_answer`, `has_image_options` and
`question_images`; `part`, `question_number` and `has_question_images`
default for records given to the merge directly. -/
structure QuestionData where
  id : String
  question_text : String
  options : List OptionData
  correct_answer : Option String
  has_image_options : Bool
  question_images : List String
  part : String := ""
  question_number : Int := 0
  has_question_images : Bool := false
  deriving DecidableEq

/-- One merged option in the final dataset format
(`convert_to_final_format`, data_merge.py lines 37-48). -/
structure FinalOption where
  type : String
  label : String
  content : String
  imagePath : Option String
  deriving DecidableEq

/-- One merged question in the final dataset format
(`convert_to_final_format`, data_merge.py lines 50-58). -/
structure FinalQuestion where
  id : String
  question : String
  questionType : String
  options : List FinalOption
  correctAnswer : Option String
  questionImages : List String
  deriving DecidableEq

/-- `calculate_question_hash` (data_merge.py lines 19-29): MD5 hex digest of
the `"|"`-join of the raw question text and the raw option texts. -/
def calculate_question_hash (q : QuestionData) : String :=
  let key_string := String.intercalate ("|") (q.question_text :: q.options.map (·.text))
  md5Hex (strBytes key_string)

/-- `convert_to_final_format` (data_merge.py lines 31-60). -/
def convert_to_final_format (q : QuestionData) (new_id : String) : FinalQuestion :=
  { id := new_id
    question := q.question_text
    questionType := if q.has_image_options then ("image-options") else ("text")
    options := q.options.map (fun o =>
      { type := if o.has_image then ("image") else ("text")
        label := o.label
        content := o.text
        imagePath := o.image })
    correctAnswer := q.correct_answer
    questionImages := q.question_images }

/-- `get_sort_key` (data_merge.py lines 79-87) applied to a file stem.
The Python code guards with `len(parts) >= 3` but indexes `parts[3]`;
stems matching the glob `part-*-question-*` always split into at least four
components, so the `IndexError` a three-component stem would raise is
unreachable, and the model returns the `("", 0)` default there. -/
def get_sort_key (stem : String) : String × Nat :=
  match pySplitCh '-' stem with
  | _ :: p1 :: _ :: p3 :: _ => (pyUpper p1, if pyIsDigit p3 then digitsVal p3.data else 0)
  | _ => (("", 0))

/-- Python `<` on strings: lexicographic on code points. -/
def charListLt : List Char → List Char → Bool
  | [], [] => false
  | [], _ :: _ => true
  | _ :: _, [] => false
  | a :: as, b :: bs =>
    if a.toNat < b.toNat then true
    else if a.toNat = b.toNat then charListLt as bs
    else false

/-- Python `a < b` for strings. -/
def pyStrLt (a b : String) : Bool := charListLt a.data b.data

/-- Python `<=` on the `(part, question_num)` sort-key tuples. -/
def sortKeyLe (a b : String × Nat) : Bool :=
  pyStrLt a.1 b.1 || (a.1 = b.1 && a.2 ≤ b.2)

/-- Stable insertion (the inserted element goes after equal keys), giving the
same result as Python's stable `sorted`. -/
def insertLe {α : Type} (le : α → α → Bool) (a : α) : List α → List α
  | [] => [a]
  | b :: l => if le b a then b :: insertLe le a l else a :: b :: l

/-- Stable sort by a boolean `≤` (agrees with Python `sorted` for total keys). -/
def stableSortLe {α : Type} (le : α → α → Bool) (l : List α) : List α :=
  l.foldl (fun acc x => insertLe le x acc) []

/-- `sorted(question_files, key=get_sort_key)` (data_merge.py line 89). -/
def sortFiles (files : List (String × QuestionData)) : List (String × QuestionData) :=
  stableSortLe (fun a b => sortKeyLe (get_sort_key a.1) (get_sort_key b.1)) files

/-- The fold of `merge_questions`' main loop (data_merge.py lines 91-118):
`seen` is the `seen_hashes` set, `counter` the running canonical number;
returns the merged questions and the old-id → new-id association list
(in insertion order; Python-dict lookup is by last binding). -/
def mergeGo (seen : List String) (counter : Nat) :
    List (String × QuestionData) → List FinalQuestion × List (String × String)
  | [] => ([], [])
  | (_, q) :: rest =>
    let h := calculate_question_hash q
    if h ∈ seen then mergeGo seen counter rest
    else
      let new_id := ("question-") ++ format03 counter
      let r := mergeGo (h :: seen) (counter + 1) rest
      (convert_to_final_format q new_id :: r.1, (q.id, new_id) :: r.2)

/-- `merge_questions` (data_merge.py lines 62-120), as a function of the
already-globbed `(stem, parsed record)` list (file names come name-sorted
from `sorted(...glob(...))`; the body re-sorts them by `get_sort_key`). -/
def merge_questions (files : List (String × QuestionData)) :
    List FinalQuestion × List (String × String) :=
  if files.isEmpty then ([], [])
  else mergeGo [] 1 (sortFiles files)

/-- Python-dict lookup for the id map: the last binding of a key wins. -/
def dictLookup (m : List (String × String)) (k : String) : Option String :=
  (m.reverse.find? (fun p => p.1 = k)).map (·.2)

/-- First-occurrence deduplication by `calculate_question_hash`, starting
from an already-seen set: the reference description of what the
`seen_hashes` fold keeps ("records mapping to a previously seen digest are
dropped, not kept"). -/
def dedupByHash (seen : List String) :
    List (String × QuestionData) → List (String × QuestionData)
  | [] => []
  | f :: rest =>
    let h := calculate_question_hash f.2
    if h ∈ seen then dedupByHash seen rest
    else f :: dedupByHash (h :: seen) rest

/-! ### Snapshot model for `scripts/capture.py`

`uiautomator dump` produces an XML tree; the code only ever walks it with
`root.iter()` (document order), reads per-element attributes, and — in one
place — iterates an element's own subtree.  A snapshot is therefore
modelled as the document-order list of elements, each carrying its
attributes together with the attributes of its strict descendants (used by
`extract_options_text`' descendant scan, and for `ElementTree`'s truthiness,
which is "has children"). -/

/-- Attributes of a descendant element (only `text` and `content-desc` of
descendants are ever read). -/
structure SubElem where
  text : String := ""
  contentDesc : String := ""
  deriving DecidableEq

/-- One element of a UI dump: the attributes `capture.py` reads, plus its
strict descendants in document order. -/
structure Element where
  text : String := ""
  contentDesc : String := ""
  boundsAttr : Option String := none
  clickable : Bool := false
  className : String := ""
  desc : List SubElem := []
  deriving DecidableEq

/-- A UI snapshot: `root.iter()` in document order. -/
abbrev Snapshot := List Element

/-- Python `bool(element)` for an `xml.etree` `Element`: true iff the element
has children (deprecated truthiness the source relies on at lines 385 and
1353 and itself warns about at line 1572). -/
def elemTruthy (e : Element) : Bool := !e.desc.isEmpty

/-- Python truthiness of an `Optional[Element]` value (`if next_button:`):
`None` is falsy, and a located element is truthy iff it has children. -/
def optElemTruthy : Option Element → Bool
  | none => false
  | some e => elemTruthy e

/-- Parse one `"x,y"` coordinate pair (`map(int, coord.split(","))` with
tuple unpacking: exactly two comma-separated Python ints). -/
def parseCoordPair (s : String) : Option (Int × Int) :=
  match pySplitCh ',' s with
  | [a, b] =>
    match parsePyInt a, parsePyInt b with
    | some x, some y => some (x, y)
    | _, _ => none
  | _ => none

/-- `ADBController.get_element_bounds` (capture.py lines 122-140): split the
`bounds` attribute on `"]["`, delete `"["` from the first part and `"]"`
from the second, and parse two coordinate pairs; any failure (missing or
empty attribute, wrong part count, `ValueError` from `int`) yields `none`. -/
def get_element_bounds (e : Element) : Option (Int × Int × Int × Int) :=
  match e.boundsAttr with
  | none => none
  | some bounds =>
    if bounds = ("") then none
    else
      match splitBrk bounds.data with
      | [p0, p1] =>
        match parseCoordPair (removeCh '[' (String.mk p0)),
              parseCoordPair (removeCh ']' (String.mk p1)) with
        | some (x1, y1), some (x2, y2) => some (x1, y1, x2, y2)
        | _, _ => none
      | _ => none

/-- `ADBController.get_center` (capture.py lines 142-145); Python `//` is
floor division. -/
def get_center : Int × Int × Int × Int → Int × Int
  | (x1, y1, x2, y2) => ((x1 + x2).fdiv 2, (y1 + y2).fdiv 2)

/-- The `y1` sort key used by the element sorts
(`bounds[1] if bounds else 0`). -/
def boundsY (e : Element) : Int :=
  match get_element_bounds e with
  | some (_, y1, _, _) => y1
  | none => 0

/-- `find_elements_by_text` (capture.py lines 206-219). -/
def find_elements_by_text (root : Snapshot) (t : String) (partialMatch : Bool) :
    List Element :=
  root.filter (fun e =>
    let text_attr := pyStrip e.text
    let content_desc := pyStrip e.contentDesc
    if partialMatch then
      pyIn (pyLower t) (pyLower text_attr) || pyIn (pyLower t) (pyLower content_desc)
    else text_attr = t || content_desc = t)

/-- The Next-keyword test of `find_next_button` method 1 (capture.py lines
227-232): the lower-cased `content-desc + " " + text` contains `"next"` or
`"下一"`. -/
def nextKeyword (e : Element) : Bool :=
  let combined := pyLower (pyStrip e.contentDesc ++ (" ") ++ pyStrip e.text)
  pyIn ("next") combined || pyIn ("下一") combined

/-- `find_next_button` method 1 (capture.py lines 225-243): first element in
document order with the keyword that is clickable and has parseable bounds. -/
def fnbMethod1 : List Element → Option Element
  | [] => none
  | e :: rest =>
    if nextKeyword e then
      if e.clickable && (get_element_bounds e).isSome then some e
      else fnbMethod1 rest
    else fnbMethod1 rest

/-- Inner candidate selection of `find_next_button` method 2 (lines 253-266):
first clickable element with bounds, else first element with bounds. -/
def fnbMethod2One (elements : List Element) : Option Element :=
  match elements.find? (fun e => e.clickable && (get_element_bounds e).isSome) with
  | some e => some e
  | none => elements.find? (fun e => (get_element_bounds e).isSome)

/-- `find_next_button` method 2 (lines 247-266): fuzzy text match over the
keyword list. -/
def fnbMethod2Go (root : Snapshot) : List String → Option Element
  | [] => none
  | t :: ts =>
    match fnbMethod2One (find_elements_by_text root t true) with
    | some e => some e
    | none => fnbMethod2Go root ts

/-- Strictly-greater test in the `reverse=True` sort order of
`find_next_button` method 3 on raw `(y1, x1)` pairs: `p` beats `q` when its
key `(y1, -x1)` is lexicographically larger, i.e. larger `y1`, or equal `y1`
and *smaller* `x1`. -/
def fnbM3Gt (p q : Int × Int) : Bool :=
  p.1 > q.1 || (p.1 = q.1 && p.2 < q.2)

/-- First maximum of the positional candidates: what
`sort(key=(y1, -x1), reverse=True)` followed by `[0]` selects (Python's
sort is stable, so the first-listed candidate among maximal keys wins). -/
def fnbM3Pick : List ((Int × Int) × Element) → Option Element
  | [] => none
  | p :: rest =>
    some (rest.foldl (fun best q => if fnbM3Gt q.1 best.1 then q else best) p).2

/-- `find_next_button` method 3 (lines 268-289): clickable elements with
bounds in the bottom-right region.  `y1 > 2848*0.7` compares an int against
the double `1993.599…`, hence `y1 ≥ 1994`; `x1 > 1276*0.5` is `x1 > 638`. -/
def fnbMethod3 (root : Snapshot) : Option Element :=
  fnbM3Pick (root.filterMap (fun e =>
    if e.clickable then
      match get_element_bounds e with
      | some (x1, y1, _, _) =>
        if y1 > 1993 && x1 > 638 then some ((y1, x1), e) else none
      | none => none
    else none))

/-- `find_next_button` (capture.py lines 221-292). -/
def find_next_button (root : Snapshot) : Option Element :=
  match fnbMethod1 root with
  | some e => some e
  | none =>
    match fnbMethod2Go root [("Next"), ("next"), ("下一页"), ("NEXT"), (">"), ("→")] with
    | some e => some e
    | none => fnbMethod3 root

/-- The per-element option heuristic of `_find_options_in_page`
(capture.py lines 554-571). -/
def fopCond (e : Element) : Bool :=
  e.clickable &&
    (let text := pyStrip e.text
     let content_desc := pyStrip e.contentDesc
     if text ≠ ("") && (5 < text.length || (text.data.take 2).any Char.isAlpha) then
       match get_element_bounds e with
       | some (_, y1, _, _) => y1 > 200
       | none => false
     else if content_desc ≠ ("") && 10 < content_desc.length then
       match get_element_bounds e with
       | some (_, y1, _, _) => y1 > 200
       | none => false
     else false)

/-- `_find_options_in_page` (capture.py lines 550-575): matching elements,
sorted by `y1` (stable), at most four. -/
def find_options_in_page (root : Snapshot) : List Element :=
  (stableSortLe (fun a b => boundsY a ≤ boundsY b) (root.filter fopCond)).take 4

/-- The question-number signal of `is_in_question_page` method 3
(capture.py lines 396-406). -/
def questionNumberSignal (e : Element) : Bool :=
  let combined := pyStrip e.contentDesc ++ (" ") ++ pyStrip e.text
  (pyIn ("/") combined && combined.data.any Char.isDigit) &&
    (match pySplitCh '/' combined with
     | [a, b] => pyIsDigit (pyStrip a) && pyIsDigit (pyStrip b)
     | _ => false)

/-- `is_in_question_page` (capture.py lines 381-409).  Line 385 tests the
located Next element with `if next_button:`, which is ElementTree truthiness:
a childless located element does not fire the first signal. -/
def is_in_question_page (root : Snapshot) : Bool :=
  if optElemTruthy (find_next_button root) then true
  else if 2 ≤ (find_options_in_page root).length then true
  else root.any questionNumberSignal

/-- The exclusion keywords of `find_options` (capture.py lines 592-596). -/
def optionExcludeKeywords : List String :=
  [("next"), ("previous"), ("上一"), ("下一"), ("back"), ("返回"),
   ("tukar"), ("bahasa"), ("change"), ("language"), ("切换"), ("语言"),
   ("exercise"), ("part"), ("theory"), ("colour"), ("blind"), ("kejara")]

/-- The per-element filter of `find_options` (capture.py lines 581-604);
`(x2 - x1) > 1276*0.5` is `x2 - x1 > 638`. -/
def findOptionsCond (e : Element) : Bool :=
  e.clickable &&
    match get_element_bounds e with
    | none => false
    | some (x1, y1, x2, _) =>
      let combined := pyLower (pyStrip e.contentDesc ++ (" ") ++ pyStrip e.text)
      if optionExcludeKeywords.any (fun k => pyIn k combined) then false
      else 800 < y1 && y1 < 2500 && x2 - x1 > 638

/-- `find_options` (capture.py lines 577-609): matching elements sorted by
`y1` (stable), at most four. -/
def find_options (root : Snapshot) : List Element :=
  (stableSortLe (fun a b => boundsY a ≤ boundsY b) (root.filter findOptionsCond)).take 4

/-- `find_image_elements` (capture.py lines 611-628). -/
def find_image_elements (root : Snapshot) : List Element :=
  stableSortLe (fun a b => boundsY a ≤ boundsY b)
    (root.filter (fun e =>
      pyEndswith e.className ("ImageView") &&
        match get_element_bounds e with
        | some (x1, y1, x2, y2) => x2 - x1 > 50 && y2 - y1 > 50
        | none => false))

/-- `categorize_images` (capture.py lines 630-679): images overlapping an
option's vertical range are option images; otherwise they are question
images (both the `y1 < 1500` band and the default case). -/
def categorize_images (image_elements options : List Element) :
    List Element × List Element :=
  let ranges := options.filterMap (fun o =>
    (get_element_bounds o).map (fun b => (b.2.1, b.2.2.2)))
  let classified := image_elements.filterMap (fun img =>
    (get_element_bounds img).map (fun b =>
      (img, ranges.any (fun r => b.2.1 ≤ r.2 && b.2.2.2 ≥ r.1))))
  ((classified.filter (fun p => !p.2)).map (·.1),
   (classified.filter (fun p => p.2)).map (·.1))

/-- First-pass question-text candidate of `extract_question_text`
(capture.py lines 817-844): `300 < y1 < 1500`, width `> 800`, preferred
text (`content-desc`, else `text`) longer than 50 characters. -/
def qtCandidate1 (e : Element) : Option (String × Int) :=
  match get_element_bounds e with
  | none => none
  | some (x1, y1, x2, _) =>
    if 300 < y1 && y1 < 1500 && x2 - x1 > 800 then
      let content_desc := pyStrip e.contentDesc
      let t := if content_desc ≠ ("") then content_desc else pyStrip e.text
      if 50 < t.length then some (t, y1) else none
    else none

/-- Second-pass (relaxed) candidate of `extract_question_text`
(capture.py lines 846-869). -/
def qtCandidate2 (e : Element) : Option (String × Int) :=
  match get_element_bounds e with
  | none => none
  | some (x1, y1, x2, _) =>
    if 200 < y1 && y1 < 1800 && x2 - x1 > 600 then
      let content_desc := pyStrip e.contentDesc
      let t := if content_desc ≠ ("") then content_desc else pyStrip e.text
      if 30 < t.length then some (t, y1) else none
    else none

/-- `extract_question_text` (capture.py lines 807-883): top-most candidate,
whitespace-collapsed; `""` when nothing qualifies. -/
def extract_question_text (root : Snapshot) : String :=
  let cands1 := root.filterMap qtCandidate1
  let cands := if cands1.isEmpty then root.filterMap qtCandidate2 else cands1
  match stableSortLe (fun a b => a.2 ≤ b.2) cands with
  | [] => ("")
  | c :: _ => pyCollapseWs c.1

/-- `extract_question_number_from_page` (capture.py lines 761-798): first
element above `y1 = 300` whose combined text splits on `"/"` into exactly
two Python-int-parseable halves; returns the first half. -/
def extract_question_number_from_page : Snapshot → Option Int
  | [] => none
  | e :: rest =>
    match get_element_bounds e with
    | none => extract_question_number_from_page rest
    | some (_, y1, _, _) =>
      if y1 ≥ 300 then extract_question_number_from_page rest
      else
        let combined := pyStrip (pyStrip e.contentDesc ++ (" ") ++ pyStrip e.text)
        if pyIn ("/") combined && combined.data.any Char.isDigit then
          match pySplitCh '/' combined with
          | [a, b] =>
            match parsePyInt (pyStrip a), parsePyInt (pyStrip b) with
            | some cur, some _ => some cur
            | _, _ => extract_question_number_from_page rest
          | _ => extract_question_number_from_page rest
        else extract_question_number_from_page rest

/-- The option glyphs. -/
def optionGlyphs : List String := [("A"), ("B"), ("C"), ("D")]

/-- The label detection of `extract_options_text` method 1
(capture.py lines 914-927), over the stripped `content-desc` and `text`:
an exact glyph, or a `"X."`/`"X "` prefix of the combined text, or the
glyph as a separate word of the combined text. -/
def extractOptionLabel1 (content_desc t : String) : Option String :=
  if content_desc ∈ optionGlyphs then some content_desc
  else if t ∈ optionGlyphs then some t
  else
    let combined := pyStrip (content_desc ++ (" ") ++ t)
    optionGlyphs.find? (fun label =>
      pyStartswith combined (label ++ (".")) ||
      pyStartswith combined (label ++ (" ")) ||
      pyIn ((" ") ++ label ++ (" ")) ((" ") ++ combined ++ (" ")))

/-- One collected option entry of `extract_options_text`: element, label,
`y1`, and the stripped `content-desc` / `text` (capture.py lines 929-936). -/
structure OptEntry where
  elem : Element
  label : String
  y : Int
  content_desc : String
  text : String
  deriving DecidableEq

/-- `extract_options_text` method 1 (capture.py lines 895-936): clickable
elements with bounds in the `1800 < y1 < 2500` band carrying a glyph label. -/
def optEntriesM1 (root : Snapshot) : List OptEntry :=
  root.filterMap (fun e =>
    if !e.clickable then none
    else
      match get_element_bounds e with
      | none => none
      | some (_, y1, _, _) =>
        if !(1800 < y1 && y1 < 2500) then none
        else
          let content_desc := pyStrip e.contentDesc
          let t := pyStrip e.text
          (extractOptionLabel1 content_desc t).map (fun label =>
            { elem := e, label := label, y := y1,
              content_desc := content_desc, text := t }))

/-- `extract_options_text` method 2 fallback (capture.py lines 938-956):
`find_options` candidates, glyphs assigned by position. -/
def optEntriesM2 (root : Snapshot) : List OptEntry :=
  ((find_options root).enum.filterMap (fun p =>
    match optionGlyphs.get? p.1 with
    | none => none
    | some label =>
      match get_element_bounds p.2 with
      | none => none
      | some (_, y1, _, _) =>
        some { elem := p.2, label := label, y := y1,
               content_desc := pyStrip p.2.contentDesc,
               text := pyStrip p.2.text }))

/-- Strip a leading `"X."`/`"X "` glyph from an option text:
`s[len(label):].lstrip(". ").strip()` (capture.py line 975 etc.). -/
def stripLabelText (label s : String) : String :=
  pyStrip (String.mk ((s.data.drop label.length).dropWhile (fun c => c = '.' || c = ' ')))

/-- Descendant text resolution of `extract_options_text` method 3
(capture.py lines 989-1011): first descendant producing a non-empty text. -/
def optChildText (label : String) : List SubElem → String
  | [] => ("")
  | c :: rest =>
    let child_text := pyStrip c.text
    let child_content_desc := pyStrip c.contentDesc
    if child_text ≠ ("") && child_text ≠ label && 1 < child_text.length then
      let t := if pyStartswith child_text (label ++ (".")) ||
                  pyStartswith child_text (label ++ (" ")) then
                 stripLabelText label child_text
               else child_text
      if t ≠ ("") then t else optChildText label rest
    else if child_content_desc ≠ ("") && child_content_desc ≠ label &&
            1 < child_content_desc.length then
      let t := if pyStartswith child_content_desc (label ++ (".")) ||
                  pyStartswith child_content_desc (label ++ (" ")) then
                 stripLabelText label child_content_desc
               else child_content_desc
      if t ≠ ("") then t else optChildText label rest
    else optChildText label rest

/-- Text resolution for one option entry (capture.py lines 962-1030).
Method 4 (`elem.getparent()`) is unreachable code that raises
`AttributeError` — `xml.etree` elements have no `getparent` — so reaching
it is modelled as the exception (`Except.error`), which
`capture_question`'s blanket `except` turns into a failed attempt. -/
def optEntryText (o : OptEntry) : Except Unit OptionData :=
  let t1 :=
    if o.content_desc ≠ ("") && 1 < o.content_desc.length &&
       o.content_desc ≠ o.label then
      if pyStartswith o.content_desc (o.label ++ (".")) ||
         pyStartswith o.content_desc (o.label ++ (" ")) then
        stripLabelText o.label o.content_desc
      else o.content_desc
    else ("")
  let t2 :=
    if t1 = ("") && o.text ≠ ("") && o.text ≠ o.label then
      if pyStartswith o.text (o.label ++ (".")) ||
         pyStartswith o.text (o.label ++ (" ")) then
        stripLabelText o.label o.text
      else o.text
    else t1
  let t3 := if t2 = ("") then optChildText o.label o.elem.desc else t2
  if t3 = ("") then Except.error ()
  else Except.ok { label := o.label, text := pyCollapseWs t3,
                   has_image := false, image := none }

/-- Fold `optEntryText` over the sorted entries, propagating the
`AttributeError`. -/
def optEntriesTexts : List OptEntry → Except Unit (List OptionData)
  | [] => Except.ok []
  | o :: rest =>
    match optEntryText o with
    | Except.error e => Except.error e
    | Except.ok d =>
      match optEntriesTexts rest with
      | Except.error e => Except.error e
      | Except.ok ds => Except.ok (d :: ds)

/-- `extract_options_text` (capture.py lines 885-1045): glyph-labelled
entries (method 1), else positional fallback (method 2); sorted by `y1`;
texts resolved per entry. -/
def extract_options_text (root : Snapshot) : Except Unit (List OptionData) :=
  let entries := optEntriesM1 root
  let entries := if entries.isEmpty then optEntriesM2 root else entries
  optEntriesTexts (stableSortLe (fun a b => a.y ≤ b.y) entries)

/-- `get_option_label` (capture.py lines 1110-1135).  The positional
fallback uses Python `list.index`, which compares `xml.etree` elements by
identity; structural equality is used here (the lists this is applied to
contain no duplicate elements). -/
def get_option_label (option : Element) (options_list : List Element) :
    Option String :=
  let content_desc := pyStrip option.contentDesc
  let t := pyStrip option.text
  if content_desc ∈ optionGlyphs then some content_desc
  else if t ∈ optionGlyphs then some t
  else
    let combined := pyStrip (content_desc ++ (" ") ++ t)
    match optionGlyphs.find? (fun label =>
        pyStartswith combined (label ++ (".")) ||
        pyStartswith combined (label ++ (" "))) with
    | some label => some label
    | none =>
      match options_list.findIdx? (fun x => decide (x = option)) with
      | some idx => optionGlyphs.get? idx
      | none => none

/-- The bounding-box average colour a frame capture yields: the environment
hands the channel averages of the sampled central patch straight to the
model (`check_option_background_color`'s PIL sampling, capture.py lines
1058-1095; pixel I/O is outside the core).  `none` models the
`pixel_count == 0` / exception path, which reports "not green". -/
abbrev AvgColor := Int × Int × Int × Int → Option (Nat × Nat × Nat)

/-- The green (affirmative) test of `check_option_background_color` on the
averaged channels (capture.py lines 1098-1099). -/
def is_green_avg (r g b : Nat) : Bool :=
  (g > r + 20 && g > b + 20 && g > 80) || (g > 150 && g > r && g > b)

/-- The red test of `check_option_background_color` (lines 1100-1101);
computed by the source but never consumed by the answer detector. -/
def is_red_avg (r g b : Nat) : Bool :=
  (r > g + 20 && r > b + 20 && r > 80) || (r > 150 && r > g && r > b)

/-- `check_option_background_color`, green component (capture.py lines
1047-1108): false when bounds are unreadable or no pixels were sampled. -/
def check_option_is_green (avgOf : AvgColor) (option : Element) : Bool :=
  match get_element_bounds option with
  | none => false
  | some b =>
    match avgOf b with
    | none => false
    | some (r, g, bl) => is_green_avg r g bl

/-- The scan of `detect_correct_answer` (capture.py lines 1158-1170): first
green option whose label resolves. -/
def detectScan (avgOf : AvgColor) (options_list : List Element) :
    List Element → Option String
  | [] => none
  | o :: rest =>
    if check_option_is_green avgOf o then
      match get_option_label o options_list with
      | some a => some a
      | none => detectScan avgOf options_list rest
    else detectScan avgOf options_list rest

/-- `detect_correct_answer` (capture.py lines 1137-1182) given the options
list and the frame's colour oracle. -/
def detect_correct_answer (avgOf : AvgColor) (options : List Element) :
    Option String :=
  if options.isEmpty then none else detectScan avgOf options options

/-- The ad keyword list of `has_ad` (capture.py line 683). -/
def adKeywords : List String :=
  [("关闭"), ("跳过"), ("Skip"), ("Close"), ("X"), ("×"), ("广告"), ("Ad")]

/-- The per-element ad test of `has_ad` (capture.py lines 688-700):
has bounds, is not a Next control, sits in the top band. -/
def hasAdElem (e : Element) : Bool :=
  match get_element_bounds e with
  | none => false
  | some (_, y1, _, _) =>
    let combined := pyLower (pyStrip e.contentDesc ++ (" ") ++ pyStrip e.text)
    !(pyIn ("next") combined || pyIn ("下一") combined) && y1 < 500

/-- `has_ad` (capture.py lines 681-701). -/
def has_ad (root : Snapshot) : Bool :=
  adKeywords.any (fun k => (find_elements_by_text root k true).any hasAdElem)

/-- The scan of `close_ad` (capture.py lines 706-724): centre of the first
matching close control (the tap target), or `none`. -/
def closeAdScan : List Element → Option (Int × Int)
  | [] => none
  | e :: rest =>
    match get_element_bounds e with
    | none => closeAdScan rest
    | some b =>
      let combined := pyLower (pyStrip e.contentDesc ++ (" ") ++ pyStrip e.text)
      if pyIn ("next") combined || pyIn ("下一") combined then closeAdScan rest
      else if b.2.1 < 500 then some (get_center b)
      else closeAdScan rest

/-- `close_ad` (capture.py lines 703-725). -/
def close_adGo (root : Snapshot) : List String → Option (Int × Int)
  | [] => none
  | k :: ks =>
    match closeAdScan (find_elements_by_text root k true) with
    | some c => some c
    | none => close_adGo root ks

/-- `close_ad` over its keyword list (capture.py line 705). -/
def close_ad (root : Snapshot) : Option (Int × Int) :=
  close_adGo root [("关闭"), ("跳过"), ("Skip"), ("Close"), ("X"), ("×")]

/-! ### The capture machine (`capture_question`, capture.py lines 1289-1635)

The device is an environment: `surfaces t` is the screen state after `t`
interactions (each `uiautomator` dump, screenshot, or tap advances the
clock), `recordExists` is the Record Store existence check
(`check_question_exists`, lines 800-805), and `enterPartOk` abstracts the
interactive `enter_part` navigation (outside the extraction core; it is
only reached when the snapshot does not classify as a question page). -/

/-- Screen state at one instant: the UI tree a dump would return and the
patch-average colour a frame capture would yield per bounding box. -/
structure SurfaceState where
  tree : Snapshot
  avg : AvgColor

/-- The capture environment. -/
structure CaptureEnv where
  surfaces : Nat → SurfaceState
  recordExists : String → Int → Bool
  enterPartOk : Nat → String → Bool

/-- The persisted crawl state (`current_part`, `part_question_id`,
`total_question_id`; capture.py lines 150-204). -/
structure CrawlState where
  current_part : Option String
  part_question_id : List (String × Int)
  total_question_id : Int
  deriving DecidableEq

/-- `self.part_question_id.get(part, 0)`. -/
def dictGetI (d : List (String × Int)) (k : String) : Int :=
  match d.find? (fun p => p.1 == k) with
  | some p => p.2
  | none => 0

/-- `self.part_question_id[part] = v` (dict update keeps unique keys). -/
def dictSetI (d : List (String × Int)) (k : String) (v : Int) :
    List (String × Int) :=
  if d.any (fun p => p.1 == k) then
    d.map (fun p => if p.1 == k then (k, v) else p)
  else d ++ [(k, v)]

/-- `sum(self.part_question_id.values())`. -/
def dictSumI (d : List (String × Int)) : Int := (d.map (·.2)).sum

/-- The running interaction context: environment, clock, and the taps
issued so far. -/
structure Machine where
  env : CaptureEnv
  time : Nat
  taps : List (Int × Int)

/-- `adb.get_ui_tree()` + `ET.fromstring`: read the current tree, advance
the clock. -/
def Machine.poll (m : Machine) : Snapshot × Machine :=
  ((m.env.surfaces m.time).tree, { m with time := m.time + 1 })

/-- `adb.take_screenshot(...)`: capture the current frame's colour oracle,
advance the clock. -/
def Machine.shot (m : Machine) : AvgColor × Machine :=
  ((m.env.surfaces m.time).avg, { m with time := m.time + 1 })

/-- `adb.tap(x, y)`: record the tap, advance the clock. -/
def Machine.tap (m : Machine) (c : Int × Int) : Machine :=
  { m with time := m.time + 1, taps := m.taps ++ [c] }

/-- Result of one `capture_question` attempt: the returned boolean, the
question record written to the Record Store (if any), the image files
written, the updated crawl state and the interaction context. -/
structure CaptureOutcome where
  success : Bool
  written : Option QuestionData
  writtenImages : List String
  st : CrawlState
  taps : List (Int × Int)
  time : Nat

/-- Outcome constructor. -/
def mkOutcome (success : Bool) (written : Option QuestionData)
    (imgs : List String) (st : CrawlState) (m : Machine) : CaptureOutcome :=
  { success := success, written := written, writtenImages := imgs,
    st := st, taps := m.taps, time := m.time }

/-- `wait_for_ad_close` (capture.py lines 727-735): polls once a second for
at most `AD_WAIT_TIMEOUT = 10` seconds, so at most ten polls. -/
def waitAdClose : Nat → Machine → Bool × Machine
  | 0, m => (false, m)
  | fuel + 1, m =>
    let pr := m.poll
    if !has_ad pr.1 then (true, pr.2) else waitAdClose fuel pr.2

/-- `detect_correct_answer_by_clicking_options`' option loop (capture.py
lines 1196-1234): tap each option, re-poll, re-capture, scan for green. -/
def detectByClickingGo : List Element → Machine → Option String × Machine
  | [], m => (none, m)
  | o :: rest, m =>
    match get_element_bounds o with
    | none => detectByClickingGo rest m
    | some b =>
      let m := m.tap (get_center b)
      let pr := m.poll
      let options1 := find_options pr.1
      let sr := pr.2.shot
      match detectScan sr.1 options1 options1 with
      | some a => (some a, sr.2)
      | none => detectByClickingGo rest sr.2

/-- `detect_correct_answer_by_clicking_options` (capture.py lines
1184-1237). -/
def detect_correct_answer_by_clicking_options (root : Snapshot) (m : Machine) :
    Option String × Machine :=
  let options := find_options root
  if options.isEmpty then (none, m) else detectByClickingGo options m

/-- The progress update of the idempotent-skip paths (capture.py lines
1361-1363 and 1369-1371): raise the per-part counter to the page number if
larger, then raise the total to the counter sum. -/
def skipUpdate (st : CrawlState) (p : String) (n : Int) : CrawlState :=
  if n > dictGetI st.part_question_id p then
    let pq := dictSetI st.part_question_id p n
    { st with part_question_id := pq,
              total_question_id := max st.total_question_id (dictSumI pq) }
  else st

/-- `increment_question_id` (capture.py lines 200-204) with a set part. -/
def incrementQid (st : CrawlState) (p : String) : CrawlState :=
  { st with
    part_question_id :=
      dictSetI st.part_question_id p (dictGetI st.part_question_id p + 1),
    total_question_id := st.total_question_id + 1 }

/-- The unconditional progress update of step 9 and of the
no-Next-after-write path (capture.py lines 1584-1588 and 1612-1619). -/
def finishUpdate (st : CrawlState) (p : String) : Option Int → CrawlState
  | some n =>
    let pq := dictSetI st.part_question_id p n
    { st with part_question_id := pq,
              total_question_id := max st.total_question_id (dictSumI pq) }
  | none => incrementQid st p

/-- Steps 7-9 of `capture_question` (capture.py lines 1416-1625): re-poll,
extract text/options/images, write the record, then click Next and update
progress.  An `AttributeError` escaping `extract_options_text` is caught
by the routine's blanket `except` (line 1631) and yields a plain failure. -/
def captureExtract (ca0 : Option String) (st : CrawlState) (m : Machine) :
    CaptureOutcome :=
  let pr := m.poll
  let root_after_click := pr.1
  let m := pr.2
  match st.current_part with
  | none => mkOutcome false none [] st m
  | some p =>
    let part_lower := pyLower p
    let page_question_num := extract_question_number_from_page root_after_click
    let part_question_num :=
      match page_question_num with
      | some n => n
      | none => dictGetI st.part_question_id p + 1
    let question_text := extract_question_text root_after_click
    match extract_options_text root_after_click with
    | Except.error _ => mkOutcome false none [] st m
    | Except.ok options_data =>
      let car :=
        match ca0 with
        | some a => (some a, m)
        | none =>
          let opts := find_options root_after_click
          if opts.isEmpty then (none, m)
          else
            let sr := m.shot
            (detectScan sr.1 opts opts, sr.2)
      let ca := car.1
      let m := car.2
      let image_elements := find_image_elements root_after_click
      let options_after_click := find_options root_after_click
      let cat := categorize_images image_elements options_after_click
      let ir :=
        if image_elements.isEmpty then (([], []), m)
        else
          let sr := m.shot
          ((cat.1.enum.filterMap (fun ip =>
              (get_element_bounds ip.2).map (fun _ =>
                ("images/options/part-") ++ part_lower ++ ("-question-") ++
                  formatInt03 part_question_num ++ ("-q-image-") ++
                  format02 (ip.1 + 1) ++ (".png"))),
            cat.2.enum.filterMap (fun ip =>
              (get_element_bounds ip.2).map (fun _ =>
                ("images/options/part-") ++ part_lower ++ ("-question-") ++
                  formatInt03 part_question_num ++ ("-opt-image-") ++
                  format02 (ip.1 + 1) ++ (".png")))), sr.2)
      let question_image_paths := ir.1.1
      let option_image_paths := ir.1.2
      let m := ir.2
      let options_with_images := options_data.enum.map (fun op =>
        if op.1 < option_image_paths.length then
          { op.2 with has_image := true, image := option_image_paths.get? op.1 }
        else op.2)
      let question_id :=
        ("part-") ++ part_lower ++ ("-question-") ++ formatInt03 part_question_num
      let qd : QuestionData :=
        { id := question_id
          part := p
          question_number := part_question_num
          question_text := question_text
          options := options_with_images
          correct_answer := ca
          has_image_options := !option_image_paths.isEmpty
          has_question_images := !question_image_paths.isEmpty
          question_images := question_image_paths }
      let imgs := question_image_paths ++ option_image_paths
      match find_next_button root_after_click with
      | none =>
        mkOutcome false (some qd) imgs (finishUpdate st p page_question_num) m
      | some nb =>
        match get_element_bounds nb with
        | none => mkOutcome false (some qd) imgs st m
        | some b =>
          let m := m.tap (get_center b)
          let vr := m.poll
          let m := vr.2
          mkOutcome true (some qd) imgs (finishUpdate st p page_question_num) m

/-- Steps 3-6 of `capture_question` (capture.py lines 1381-1414): find the
options, passive colour read, active click probing, and the mandatory
first-option click.  An empty re-fetched option list at line 1405 raises
`IndexError`, caught by the blanket `except` (failure, nothing written). -/
def captureProbe (root : Snapshot) (st : CrawlState) (m : Machine) :
    CaptureOutcome :=
  let options := find_options root
  if options.isEmpty then mkOutcome false none [] st m
  else
    let sr := m.shot
    match detectScan sr.1 options options with
    | some a => captureExtract (some a) st sr.2
    | none =>
      let dr := detect_correct_answer_by_clicking_options root sr.2
      let pr := dr.2.poll
      let root2 := pr.1
      let m := pr.2
      let options2 := find_options root2
      match dr.1 with
      | some a => captureExtract (some a) st m
      | none =>
        match options2 with
        | [] => mkOutcome false none [] st m
        | o :: _ =>
          match get_element_bounds o with
          | none => captureExtract none st m
          | some b =>
            let m := m.tap (get_center b)
            let pr2 := m.poll
            captureExtract none st pr2.2

/-- Step 2.5 of `capture_question` (capture.py lines 1331-1379): the
idempotent-skip check, and — when the page number is fresh — the counter
realignment before extraction.  Inside the skip branch the source tests
the located Next element with `if next_button:` (line 1353), i.e.
`ElementTree` truthiness, and a truthy element with unparseable bounds
falls through into the full extraction (no `else` at line 1355). -/
def captureSkipCheck (root : Snapshot) (st : CrawlState) (m : Machine) :
    CaptureOutcome :=
  match st.current_part with
  | none => captureProbe root st m
  | some p =>
    match extract_question_number_from_page root with
    | none => captureProbe root st m
    | some n =>
      if m.env.recordExists p n then
        let pr :=
          match find_options root with
          | [] => (root, m)
          | o :: _ =>
            match get_element_bounds o with
            | none => (root, m)
            | some b => (m.tap (get_center b)).poll
        let root1 := pr.1
        let m := pr.2
        match find_next_button root1 with
        | some nb =>
          if elemTruthy nb then
            match get_element_bounds nb with
            | some b =>
              let m := m.tap (get_center b)
              mkOutcome true none [] (skipUpdate st p n) m
            | none => captureProbe root1 st m
          else mkOutcome false none [] (skipUpdate st p n) m
        | none => mkOutcome false none [] (skipUpdate st p n) m
      else
        let st :=
          if n > dictGetI st.part_question_id p then
            let pq := dictSetI st.part_question_id p (n - 1)
            { st with part_question_id := pq, total_question_id := dictSumI pq }
          else st
        captureProbe root st m

/-- Step 2 of `capture_question` (capture.py lines 1318-1329): ad handling.
A failed `close_ad` falls through with the stale tree; a close that never
settles persists the checkpoint and fails the attempt. -/
def captureAdCheck (root : Snapshot) (st : CrawlState) (m : Machine) :
    CaptureOutcome :=
  if has_ad root then
    match close_ad root with
    | some c =>
      let m := m.tap c
      let wr := waitAdClose 10 m
      if !wr.1 then mkOutcome false none [] st wr.2
      else
        let pr := wr.2.poll
        captureSkipCheck pr.1 st pr.2
    | none => captureSkipCheck root st m
  else captureSkipCheck root st m

/-- `capture_question` (capture.py lines 1289-1635). -/
def capture_question (env : CaptureEnv) (st : CrawlState) : CaptureOutcome :=
  let m : Machine := { env := env, time := 0, taps := [] }
  let pr := m.poll
  let root := pr.1
  let m := pr.2
  if is_in_question_page root then captureAdCheck root st m
  else
    match st.current_part with
    | none => mkOutcome false none [] st m
    | some p =>
      if env.enterPartOk m.time p then
        let m := { m with time := m.time + 1 }
        let pr2 := m.poll
        if is_in_question_page pr2.1 then captureAdCheck pr2.1 st pr2.2
        else mkOutcome false none [] st pr2.2
      else mkOutcome false none [] st m

/-! ### The crawl loop (`QuestionCapture.run`, capture.py lines 1693-1770)

One loop iteration polls the surface, checks partition completion, and
attempts a capture; `is_part_completed` and `capture_question` outcomes are
supplied per iteration by the loop environment (each is a function of the
surface, modelled elsewhere), as is `enter_part` success. -/

/-- `PARTS_ORDER` (capture.py line 30). -/
def PARTS_ORDER : List String := [("A"), ("B"), ("C")]

/-- Per-iteration oracles of the crawl loop. -/
structure RunEnv where
  partCompleted : Nat → Bool
  captureOk : Nat → Bool
  enterPartOk : Nat → String → Bool

/-- The loop state of `run`: crawl state plus the loop-local `count` and
`consecutive_failures`, and whether the loop has exited. -/
structure RunState where
  current_part : Option String
  part_question_id : List (String × Int)
  count : Nat
  consecutive_failures : Nat
  halted : Bool
  deriving DecidableEq

/-- The next-partition computation of `switch_to_next_part` (capture.py
lines 1666-1680): `none` means the ordered list is exhausted
(`return False`); an unknown current partition restarts at `"A"`. -/
def nextPartOf : Option String → Option String
  | none => some ("A")
  | some p =>
    match PARTS_ORDER.findIdx? (fun q => q == p) with
    | none => some ("A")
    | some idx =>
      if idx < PARTS_ORDER.length - 1 then PARTS_ORDER.get? (idx + 1) else none

/-- `switch_to_next_part` (capture.py lines 1664-1691): compute the next
partition, enter it (environment), set it current and initialise its
counter if absent. -/
def switch_to_next_part (env : RunEnv) (i : Nat) (st : RunState) :
    Bool × RunState :=
  match nextPartOf st.current_part with
  | none => (false, st)
  | some np =>
    if env.enterPartOk i np then
      let pq :=
        if st.part_question_id.any (fun q => q.1 == np) then st.part_question_id
        else st.part_question_id ++ [(np, 0)]
      (true, { st with current_part := some np, part_question_id := pq })
    else (false, st)

/-- One iteration of the `while True` crawl loop (capture.py lines
1727-1759): max-count exit, partition-completion switch, then the capture
attempt with the consecutive-failure budget of three. -/
def runStep (env : RunEnv) (maxQ : Option Nat) (i : Nat) (st : RunState) :
    RunState :=
  if st.halted then st
  else if (match maxQ with
           | some mq => mq ≠ 0 && st.count ≥ mq
           | none => false) then { st with halted := true }
  else if env.partCompleted i then
    let sr := switch_to_next_part env i st
    if sr.1 then sr.2 else { sr.2 with halted := true }
  else if env.captureOk i then
    { st with consecutive_failures := 0, count := st.count + 1 }
  else
    let cf := st.consecutive_failures + 1
    if cf ≥ 3 then
      let sr := switch_to_next_part env i st
      if sr.1 then { sr.2 with consecutive_failures := 0 }
      else { sr.2 with halted := true, consecutive_failures := cf }
    else { st with consecutive_failures := cf }

/-- Iterate the crawl loop for a number of iterations. -/
def runSteps (env : RunEnv) (maxQ : Option Nat) : Nat → RunState → RunState
  | 0, st => st
  | n + 1, st => runSteps env maxQ n (runStep env maxQ (n) st)

/-- Re-join a split with the separator. -/
def joinSep (sep : Char) : List (List Char) → List Char
  | [] => []
  | [x] => x
  | x :: y :: xs => x ++ sep :: joinSep sep (y :: xs)

/-! ### The strict `[x1,y1][x2,y2]` format (comparison definition for the
bounds-parsing claim) -/

/-- Characters an integer literal may contain. -/
def intLitChar (c : Char) : Bool := c = '-' || c.isDigit

/-- A Python integer literal: decimal digits with an optional leading
minus (no whitespace, as the `bounds` format carries none). -/
def isIntLiteral (l : List Char) : Bool :=
  if l.headD ' ' = '-' then allDigits l.tail else allDigits l

/-- Value of an integer literal. -/
def intLiteralVal (l : List Char) : Int :=
  if l.headD ' ' = '-' then -(digitsVal l.tail : Int) else (digitsVal l : Int)

/-- Strict `"x,y"` pair: exactly two integer literals. -/
def coordLit (l : List Char) : Option (Int × Int) :=
  match splitCh ',' l with
  | [a, b] =>
    if isIntLiteral a && isIntLiteral b then
      some (intLiteralVal a, intLiteralVal b)
    else none
  | _ => none

/-- Strict parser for the claim's standard shape `[x1,y1][x2,y2]` with
integer coordinates: succeeds exactly on attributes of that form (stated
from the claim's wording, to be compared with `get_element_bounds`). -/
def stdBoundsParse (s : String) : Option (Int × Int × Int × Int) :=
  match splitBrk s.data with
  | [p0, p1] =>
    if p0.headD ' ' = '[' && p1.reverse.headD ' ' = ']' then
      match coordLit p0.tail, coordLit p1.dropLast with
      | some (x1, y1), some (x2, y2) => some (x1, y1, x2, y2)
      | _, _ => none
    else none
  | _ => none

/-! ### Concrete snapshots and environments used by the claim theorems -/

/-- A question-number banner element (`"5/150"` top-left). -/
def demoNumElem : Element :=
  { contentDesc := "5/150", boundsAttr := some ("[252,196][487,276]") }

/-- A question-text element in the body band. -/
def demoQElem : Element :=
  { contentDesc := "When driving on the highway you must keep your distance from other vehicles",
    boundsAttr := some ("[50,400][1000,520]") }

/-- A wide clickable option-like element whose text mentions the glyph `B`
as a word (`" B "`), but not as a leading label. -/
def demoOptB : Element :=
  { contentDesc := "Go to B", boundsAttr := some ("[100,1900][1100,1980]"),
    clickable := true, className := "android.widget.Button" }

/-- A wide clickable option-like element whose text mentions the glyph `C`
as a word. -/
def demoOptC : Element :=
  { contentDesc := "Pick C now", boundsAttr := some ("[100,2000][1100,2080]"),
    clickable := true, className := "android.widget.Button" }

/-- Colour oracle: the first option's patch is green, everything else grey. -/
def demoAvg : AvgColor := fun b =>
  if b = (100, 1900, 1100, 1980) then some (10, 200, 10) else some (200, 200, 200)

/-- Initial crawl state: partition A, fresh counters. -/
def demoSt : CrawlState :=
  { current_part := some ("A"),
    part_question_id := [(("A"), 0), (("B"), 0), (("C"), 0)],
    total_question_id := 0 }

/-- C4 environment: static question page whose two options carry word-level
glyph mentions; the record store is empty. -/
def c4Env : CaptureEnv :=
  { surfaces := fun _ =>
      { tree := [demoNumElem, demoQElem, demoOptB, demoOptC], avg := demoAvg },
    recordExists := fun _ _ => false,
    enterPartOk := fun _ _ => true }

/-- C2 environment (a): same page with no question-text element. -/
def c2EnvNoText : CaptureEnv :=
  { surfaces := fun _ =>
      { tree := [demoNumElem, demoOptB, demoOptC], avg := demoAvg },
    recordExists := fun _ _ => false,
    enterPartOk := fun _ _ => true }

/-- An explicitly labelled single option. -/
def demoSingleOpt : Element :=
  { contentDesc := "B. Something quite long here",
    boundsAttr := some ("[100,1900][1100,1980]"),
    clickable := true, className := "android.widget.Button" }

/-- Colour oracle with no green anywhere. -/
def demoAvgRed : AvgColor := fun _ => some (200, 10, 10)

/-- C2 environment (b): a question page exposing exactly one option. -/
def c2EnvOneOption : CaptureEnv :=
  { surfaces := fun _ =>
      { tree := [demoNumElem, demoQElem, demoSingleOpt], avg := demoAvgRed },
    recordExists := fun _ _ => false,
    enterPartOk := fun _ _ => true }

/-- C2 environment (c): a question page exposing zero options. -/
def c2EnvNoOptions : CaptureEnv :=
  { surfaces := fun _ =>
      { tree := [demoNumElem, demoQElem], avg := demoAvgRed },
    recordExists := fun _ _ => false,
    enterPartOk := fun _ _ => true }

/-- A question-number banner for item 7. -/
def c3NumElem : Element :=
  { contentDesc := "7/150", boundsAttr := some ("[252,196][487,276]") }

/-- A childless (leaf) Next button: clickable, parseable bounds, no
children — the typical shape of a real button node. -/
def c3NextLeaf : Element :=
  { contentDesc := "Next", boundsAttr := some ("[100,2600][300,2700]"),
    clickable := true }

/-- C3 environment: the record for (A, 7) already exists and the page shows
a leaf Next button. -/
def c3Env : CaptureEnv :=
  { surfaces := fun _ =>
      { tree := [c3NumElem, c3NextLeaf], avg := demoAvgRed },
    recordExists := fun _ _ => true,
    enterPartOk := fun _ _ => true }

/-- Option elements with bare glyph labels, both rendered green. -/
def c5OptA : Element :=
  { contentDesc := "A", boundsAttr := some ("[100,1900][1100,1980]"),
    clickable := true }

/-- Second glyph-labelled option. -/
def c5OptB : Element :=
  { contentDesc := "B", boundsAttr := some ("[100,2000][1100,2080]"),
    clickable := true }

/-- Colour oracle: every patch is green. -/
def c5Green : AvgColor := fun _ => some (10, 200, 10)

/-- Element carrying an explicit glyph, for the label-agreement witness. -/
def c4GlyphElem : Element := { contentDesc := "A", clickable := true }

/-- Malformed-on-the-spec's-terms bounds attribute that the source parser
nevertheless accepts. -/
def c10BadElem : Element := { boundsAttr := some ("1,2][3,4") }

/-- An element with no `bounds` attribute at all. -/
def c10NoneElem : Element := { boundsAttr := none }

/-- An element whose `bounds` attribute splits on `"]["` into one part. -/
def c10OnePartElem : Element := { boundsAttr := some ("[1,2]") }

/-- An element whose first bracket-stripped part has a non-integer
coordinate. -/
def c10BadIntElem : Element := { boundsAttr := some ("[a,b][3,4]") }

/-- Standard-form bounds attribute. -/
def c10GoodElem : Element := { boundsAttr := some ("[100,2600][300,2700]") }

/-- Snapshot for the C9 witness: exactly the claim's scenario element. -/
def c9Root : Snapshot := [c3NextLeaf]

/-- C8 counterexample environment: partition reported complete, capture
failing. -/
def c8Env : RunEnv :=
  { partCompleted := fun _ => true, captureOk := fun _ => false,
    enterPartOk := fun _ _ => true }

/-- C8 loop state with two consecutive failures on partition A. -/
def c8St : RunState :=
  { current_part := some ("A"), part_question_id := [(("A"), 0)], count := 0,
    consecutive_failures := 2, halted := false }

/-- C8 witness environment: captures keep failing, partition not complete. -/
def c8EnvFail : RunEnv :=
  { partCompleted := fun _ => false, captureOk := fun _ => false,
    enterPartOk := fun _ _ => true }

/-! ### Characterisation of the merge fold -/

/-- Canonical numbering of a survivor list from a starting counter
(the claim's "sequential, dense" id assignment). -/
def idsFrom (counter : Nat) : List (String × QuestionData) → List FinalQuestion
  | [] => []
  | f :: rest =>
    convert_to_final_format f.2 (("question-") ++ format03 counter) ::
      idsFrom (counter + 1) rest

/-- The id-remap entries of the same numbering. -/
def mapFrom (counter : Nat) : List (String × QuestionData) → List (String × String)
  | [] => []
  | f :: rest =>
    (f.2.id, ("question-") ++ format03 counter) :: mapFrom (counter + 1) rest

/-- The survivors of a merge: first-seen records per digest, in the stable
`(partition, ordinal)` sort order. -/
def survivorsOf (files : List (String × QuestionData)) :
    List (String × QuestionData) :=
  dedupByHash [] (sortFiles files)

/-- A shard record whose texts are upper case. -/
def c1Qstop : QuestionData :=
  { id := "part-a-question-001", question_text := "STOP",
    options := [{ label := "A", text := "Go ahead", has_image := false, image := none }],
    correct_answer := none, has_image_options := false, question_images := [] }

/-- The same record with the question text lower-cased. -/
def c1Qlower : QuestionData :=
  { c1Qstop with id := ("part-a-question-002"), question_text := ("stop") }

/-- The same record under a different id (identical texts). -/
def c1Qcopy : QuestionData := { c1Qstop with id := ("part-b-question-001") }

/-- The two-shard input used by the C1 and C7 witnesses. -/
def c7Files : List (String × QuestionData) :=
  [(("part-a-question-001"), c1Qstop), (("part-a-question-002"), c1Qlower)]

/-! ### Lemmas and claim theorems -/

/-! ### Helper lemmas -/

theorem splitCh_ne_nil (sep : Char) (l : List Char) : splitCh sep l ≠ [] := by
  cases l with
  | nil => simp [splitCh]
  | cons c rest =>
    simp only [splitCh]
    split
    · exact List.cons_ne_nil _ _
    · split <;> exact List.cons_ne_nil _ _

theorem joinSep_splitCh (sep : Char) (l : List Char) :
    joinSep sep (splitCh sep l) = l := by
  induction l with
  | nil => rfl
  | cons c rest ih =>
    simp only [splitCh]
    by_cases hc : c = sep
    · simp only [if_pos hc]
      cases hsp : splitCh sep rest with
      | nil => exact absurd hsp (splitCh_ne_nil sep rest)
      | cons h t =>
        rw [hsp] at ih
        simp only [joinSep, List.nil_append, hc, ih]
    · simp only [if_neg hc]
      cases hsp : splitCh sep rest with
      | nil => exact absurd hsp (splitCh_ne_nil sep rest)
      | cons h t =>
        rw [hsp] at ih
        cases t with
        | nil => simpa [joinSep] using ih
        | cons t1 ts =>
          simp only [joinSep, List.cons_append] at ih ⊢
          rw [ih]

theorem dropWhile_eq_self_of_all {p : Char → Bool} (l : List Char)
    (h : l.all (fun c => !p c)) : l.dropWhile p = l := by
  cases l with
  | nil => rfl
  | cons c r =>
    have h' := h
    rw [List.all_cons, Bool.and_eq_true] at h'
    have hc : p c = false := by
      have := h'.1
      rwa [Bool.not_eq_true'] at this
    simp [List.dropWhile, hc]

theorem pyStrip_eq_self (l : List Char) (h : l.all (fun c => !isPySpace c)) :
    pyStrip (String.mk l) = String.mk l := by
  unfold pyStrip
  rw [dropWhile_eq_self_of_all l h,
      dropWhile_eq_self_of_all l.reverse (by simpa using h),
      List.reverse_reverse]

theorem insertLe_length {α : Type} (le : α → α → Bool) (a : α) (l : List α) :
    (insertLe le a l).length = l.length + 1 := by
  induction l with
  | nil => rfl
  | cons b r ih =>
    simp only [insertLe]
    split <;> simp [ih]

theorem stableSortLe_length {α : Type} (le : α → α → Bool) (l : List α) :
    (stableSortLe le l).length = l.length := by
  suffices h : ∀ acc : List α,
      (l.foldl (fun acc x => insertLe le x acc) acc).length = acc.length + l.length by
    simpa [stableSortLe] using h []
  induction l with
  | nil => intro acc; simp
  | cons b r ih =>
    intro acc
    simp only [List.foldl_cons]
    rw [ih (insertLe le b acc), insertLe_length]
    simp only [List.length_cons]
    omega

theorem find_options_in_page_length (root : Snapshot) :
    (find_options_in_page root).length = min 4 (root.filter fopCond).length := by
  unfold find_options_in_page
  rw [List.length_take, stableSortLe_length]

theorem intLitChar_not_space (c : Char) (h : intLitChar c = true) :
    isPySpace c = false := by
  rw [intLitChar, Bool.or_eq_true] at h
  rcases h with h | hd
  · have hc : c = '-' := by simpa using h
    subst hc; decide
  · cases hps : isPySpace c with
    | false => rfl
    | true =>
      exfalso
      simp only [isPySpace, Bool.or_eq_true, decide_eq_true_eq] at hps
      rcases hps with ((((rfl | rfl) | rfl) | rfl) | rfl) | rfl <;> simp at hd

theorem intLitChar_ne_brackets (c : Char) (h : intLitChar c = true) :
    c ≠ '[' ∧ c ≠ ']' := by
  rw [intLitChar, Bool.or_eq_true] at h
  rcases h with h | hd
  · have hc : c = '-' := by simpa using h
    subst hc; exact ⟨by decide, by decide⟩
  · constructor <;> intro hc <;> subst hc <;> simp at hd

theorem isIntLiteral_all (a : List Char) (h : isIntLiteral a = true) :
    ∀ c ∈ a, intLitChar c = true := by
  intro c hc
  cases a with
  | nil => cases hc
  | cons a0 r =>
    unfold isIntLiteral at h
    by_cases h0 : a0 = '-'
    · subst h0
      rw [if_pos (by simp)] at h
      unfold allDigits at h
      rw [Bool.and_eq_true, List.all_eq_true] at h
      rcases List.mem_cons.mp hc with rfl | hmem
      · decide
      · simp [intLitChar, h.2 c hmem]
    · rw [if_neg (by simpa using h0)] at h
      unfold allDigits at h
      rw [Bool.and_eq_true, List.all_eq_true] at h
      simp [intLitChar, h.2 c hc]

theorem coordLit_all (l : List Char) (v : Int × Int) (h : coordLit l = some v) :
    ∀ c ∈ l, intLitChar c = true ∨ c = ',' := by
  intro c hc
  unfold coordLit at h
  split at h
  · next a b heq =>
    split at h
    · next hlit =>
      rw [Bool.and_eq_true] at hlit
      have hl : l = a ++ ',' :: b := by
        have hj := joinSep_splitCh ',' l
        rw [heq] at hj
        simpa [joinSep] using hj.symm
      rw [hl] at hc
      rcases List.mem_append.mp hc with hm | hm
      · exact Or.inl (isIntLiteral_all a hlit.1 c hm)
      · rcases List.mem_cons.mp hm with rfl | hm2
        · exact Or.inr rfl
        · exact Or.inl (isIntLiteral_all b hlit.2 c hm2)
    · cases h
  · cases h

theorem filter_eq_self_of_all {p : Char → Bool} (l : List Char)
    (h : ∀ c ∈ l, p c = true) : l.filter p = l := by
  induction l with
  | nil => rfl
  | cons c r ih =>
    rw [List.filter_cons, if_pos (h c (List.mem_cons_self c r))]
    rw [ih (fun x hx => h x (List.mem_cons_of_mem c hx))]

theorem parsePyInt_intLit (a : List Char) (h : isIntLiteral a = true) :
    parsePyInt (String.mk a) = some (intLiteralVal a) := by
  have hstrip : pyStrip (String.mk a) = String.mk a := by
    apply pyStrip_eq_self
    rw [List.all_eq_true]
    intro c hc
    rw [Bool.not_eq_true']
    exact intLitChar_not_space c (isIntLiteral_all a h c hc)
  unfold parsePyInt
  rw [hstrip]
  unfold isIntLiteral at h
  unfold intLiteralVal
  by_cases h0 : (String.mk a).data.headD ' ' = '-'
  · rw [if_pos h0] at h ⊢
    rw [if_pos h0, if_pos h]
  · rw [if_neg h0] at h ⊢
    rw [if_neg h0]
    have h1 : (String.mk a).data.headD ' ' ≠ '+' := by
      intro hp
      cases a with
      | nil => simp at hp
      | cons a0 r =>
        have : a0 = '+' := by simpa using hp
        subst this
        unfold allDigits at h
        rw [Bool.and_eq_true, List.all_eq_true] at h
        have := h.2 '+' (List.mem_cons_self _ _)
        simp at this
    rw [if_neg h1, if_pos h]

theorem parseCoordPair_of_coordLit (l : List Char) (x y : Int)
    (h : coordLit l = some (x, y)) :
    parseCoordPair (String.mk l) = some (x, y) := by
  unfold coordLit at h
  split at h
  · next a b heq =>
    split at h
    · next hlit =>
      rw [Bool.and_eq_true] at hlit
      unfold parseCoordPair pySplitCh
      have hdata : (String.mk l).data = l := rfl
      rw [hdata, heq]
      simp only [List.map_cons, List.map_nil]
      rw [parsePyInt_intLit a hlit.1, parsePyInt_intLit b hlit.2]
      injection h with h'
      rw [Prod.mk.injEq] at h'
      rw [h'.1, h'.2]
    · cases h
  · cases h

theorem removeCh_of_coordLit_first (r0 : List Char) (v : Int × Int)
    (hc : coordLit r0 = some v) :
    removeCh '[' (String.mk ('[' :: r0)) = String.mk r0 := by
  unfold removeCh
  have hd : (String.mk ('[' :: r0)).data = '[' :: r0 := rfl
  rw [hd, List.filter_cons]
  rw [if_neg (by simp)]
  congr 1
  apply filter_eq_self_of_all
  intro c hcm
  rcases coordLit_all r0 v hc c hcm with hm | hm
  · simpa using (intLitChar_ne_brackets c hm).1
  · subst hm; decide

theorem removeCh_of_coordLit_last (r1 : List Char) (v : Int × Int)
    (hc : coordLit r1 = some v) :
    removeCh ']' (String.mk (r1 ++ [']'])) = String.mk r1 := by
  unfold removeCh
  have hd : (String.mk (r1 ++ [']'])).data = r1 ++ [']'] := rfl
  rw [hd, List.filter_append]
  have h2 : [']'].filter (fun x => x ≠ ']') = [] := by decide
  rw [h2, List.append_nil]
  congr 1
  apply filter_eq_self_of_all
  intro c hcm
  rcases coordLit_all r1 v hc c hcm with hm | hm
  · simpa using (intLitChar_ne_brackets c hm).2
  · subst hm; decide

theorem get_element_bounds_of_std (s : String) (x1 y1 x2 y2 : Int)
    (h : stdBoundsParse s = some (x1, y1, x2, y2)) (e : Element)
    (he : e.boundsAttr = some s) :
    get_element_bounds e = some (x1, y1, x2, y2) := by
  unfold stdBoundsParse at h
  split at h
  case h_2 => cases h
  case h_1 p0 p1 hsp =>
    split at h
    case isFalse => cases h
    case isTrue hcond =>
      rw [Bool.and_eq_true, decide_eq_true_eq, decide_eq_true_eq] at hcond
      split at h
      case h_2 => cases h
      case h_1 cx1 cy1 cx2 cy2 hc0 hc1 =>
        have hp0ne : p0 ≠ [] := by
          intro hh
          rw [hh] at hcond
          simp at hcond
        have hp0 : p0 = '[' :: p0.tail := by
          cases hp : p0 with
          | nil => exact absurd hp hp0ne
          | cons c r =>
            rw [hp] at hcond
            have : c = '[' := by simpa using hcond.1
            rw [this]
            rfl
        have hp1 : p1 = p1.dropLast ++ [']'] := by
          cases hq : p1.reverse with
          | nil =>
            rw [hq] at hcond
            simp at hcond
          | cons c rr =>
            have hc : c = ']' := by
              rw [hq] at hcond
              simpa using hcond.2
            have hp1r : p1 = rr.reverse ++ [']'] := by
              have := congrArg List.reverse hq
              rw [List.reverse_reverse] at this
              rw [this, hc, List.reverse_cons]
            rw [hp1r, List.dropLast_concat]
        have hne : s ≠ ("") := by
          intro hempty
          rw [hempty] at hsp
          simp [splitBrk] at hsp
        unfold get_element_bounds
        rw [he]
        show (if s = ("") then none
          else match splitBrk s.data with
          | [p0, p1] =>
            match parseCoordPair (removeCh '[' (String.mk p0)),
                  parseCoordPair (removeCh ']' (String.mk p1)) with
            | some (x1, y1), some (x2, y2) => some (x1, y1, x2, y2)
            | _, _ => none
          | _ => none) = some (x1, y1, x2, y2)
        rw [if_neg hne, hsp]
        show (match parseCoordPair (removeCh '[' (String.mk p0)),
                  parseCoordPair (removeCh ']' (String.mk p1)) with
            | some (x1, y1), some (x2, y2) => some (x1, y1, x2, y2)
            | _, _ => none) = some (x1, y1, x2, y2)
        rw [hp0, hp1]
        rw [removeCh_of_coordLit_first p0.tail _ hc0,
            removeCh_of_coordLit_last p1.dropLast _ hc1]
        rw [parseCoordPair_of_coordLit _ _ _ hc0,
            parseCoordPair_of_coordLit _ _ _ hc1]
        exact h

/-! ### Claim theorems -/

theorem fnbMethod1_exists (l : List Element) (e : Element) (he : e ∈ l)
    (h1 : nextKeyword e = true) (h2 : e.clickable = true)
    (h3 : (get_element_bounds e).isSome = true) :
    ∃ r, fnbMethod1 l = some r ∧ nextKeyword r = true ∧ r.clickable = true ∧
      (get_element_bounds r).isSome = true := by
  induction l with
  | nil => cases he
  | cons a rest ih =>
    by_cases hk : nextKeyword a = true
    · by_cases hcb : (a.clickable && (get_element_bounds a).isSome) = true
      · have hcb' := hcb
        rw [Bool.and_eq_true] at hcb'
        exact ⟨a, by simp [fnbMethod1, hk, hcb], hk, hcb'.1, hcb'.2⟩
      · have hea : e ≠ a := by
          intro hh
          subst hh
          exact hcb (by rw [h2, h3]; rfl)
        have he' : e ∈ rest := by
          rcases List.mem_cons.mp he with h | h
          · exact absurd h hea
          · exact h
        rcases ih he' with ⟨r, hr1, hr2⟩
        exact ⟨r, by simp only [fnbMethod1, if_pos hk, if_neg hcb]; exact hr1, hr2⟩
    · have hea : e ≠ a := by
        intro hh
        subst hh
        exact hk h1
      have he' : e ∈ rest := by
        rcases List.mem_cons.mp he with h | h
        · exact absurd h hea
        · exact h
      rcases ih he' with ⟨r, hr1, hr2⟩
      exact ⟨r, by simp only [fnbMethod1, if_neg hk]; exact hr1, hr2⟩

/-- C9: for every snapshot containing an element whose combined
content-desc+text contains a Next keyword, that is clickable, and that has
parseable bounds, `find_next_button` returns such an element (method 1
fires before any fallback; absence is an explicit `none`, never an
exception). -/
theorem c9_next_locator (root : Snapshot) (e : Element) (he : e ∈ root)
    (h1 : nextKeyword e = true) (h2 : e.clickable = true)
    (h3 : (get_element_bounds e).isSome = true) :
    ∃ r, find_next_button root = some r ∧ nextKeyword r = true ∧
      r.clickable = true ∧ (get_element_bounds r).isSome = true := by
  rcases fnbMethod1_exists root e he h1 h2 h3 with ⟨r, hr1, hr2⟩
  refine ⟨r, ?_, hr2⟩
  unfold find_next_button
  rw [hr1]

/-- C9 witness: the claim's scenario — keyword `"Next"`, clickable,
bounds `[100,2600][300,2700]`; the locator returns that element and the
integer-midpoint centre of its bounds is `(200, 2650)`. -/
theorem c9_next_locator_witness :
    c3NextLeaf ∈ c9Root ∧ nextKeyword c3NextLeaf = true ∧
    c3NextLeaf.clickable = true ∧
    (get_element_bounds c3NextLeaf).isSome = true ∧
    (∃ r, find_next_button c9Root = some r ∧ nextKeyword r = true ∧
      r.clickable = true ∧ (get_element_bounds r).isSome = true) ∧
    find_next_button c9Root = some c3NextLeaf ∧
    get_element_bounds c3NextLeaf = some (100, 2600, 300, 2700) ∧
    get_center (100, 2600, 300, 2700) = (200, 2650) :=
  ⟨by decide, by decide, by decide, by decide,
   c9_next_locator c9Root c3NextLeaf (by decide) (by decide) (by decide) (by decide),
   by decide, by decide, by decide⟩

/-- C6 counterexample: a snapshot whose only Question signal is a childless
(leaf) Next control — the control is locatable, clickable and has parseable
bounds, yet line 385's `if next_button:` is ElementTree truthiness and is
false for a childless element, so the classifier does not report the
Question kind; the claimed "a Next control is locatable" signal is not
sufficient. -/
theorem c6_question_page_counterexample :
    find_next_button [c3NextLeaf] = some c3NextLeaf ∧
    c3NextLeaf.clickable = true ∧
    (get_element_bounds c3NextLeaf).isSome = true ∧
    is_in_question_page [c3NextLeaf] = false := by
  decide

/-- C6 (amended): the page classifier reports the Question kind iff at
least one of three signals holds — the located Next control is truthy under
ElementTree semantics (a childless located Next control does not fire this
signal), at least two elements satisfy the option heuristic, or an
element's combined text matches `<int>/<int>`; the classifier is a total
boolean function. -/
theorem c6_question_page_amended (root : Snapshot) :
    is_in_question_page root = true ↔
      (optElemTruthy (find_next_button root) = true ∨
        2 ≤ (root.filter fopCond).length ∨
        ∃ e ∈ root, questionNumberSignal e = true) := by
  unfold is_in_question_page
  have hlen : (2 ≤ (find_options_in_page root).length) ↔
      2 ≤ (root.filter fopCond).length := by
    rw [find_options_in_page_length]
    omega
  by_cases hn : optElemTruthy (find_next_button root) = true
  · simp [hn]
  · rw [if_neg hn]
    by_cases ho : 2 ≤ (find_options_in_page root).length
    · simp only [if_pos ho]
      simp [hlen.mp ho]
    · rw [if_neg ho]
      rw [List.any_eq_true]
      constructor
      · rintro ⟨e, hm, hs⟩
        exact Or.inr (Or.inr ⟨e, hm, hs⟩)
      · rintro (h | h | ⟨e, hm, hs⟩)
        · exact absurd h hn
        · exact absurd (hlen.mpr h) ho
        · exact ⟨e, hm, hs⟩

theorem detectScan_eq_find (avgOf : AvgColor) (ol : List Element) :
    ∀ l, detectScan avgOf ol l =
      ((l.find? (fun o =>
          check_option_is_green avgOf o && (get_option_label o ol).isSome)).bind
        (fun o => get_option_label o ol)) := by
  intro l
  induction l with
  | nil => rfl
  | cons o rest ih =>
    cases hg : check_option_is_green avgOf o with
    | false =>
      have hfalse :
          (check_option_is_green avgOf o && (get_option_label o ol).isSome) = false := by
        rw [hg]; rfl
      simp [detectScan, hg, List.find?, hfalse, ih]
    | true =>
      cases hl : get_option_label o ol with
      | some a =>
        have htrue :
            (check_option_is_green avgOf o && (get_option_label o ol).isSome) = true := by
          rw [hg, hl]; rfl
        simp [detectScan, hg, hl, List.find?, htrue]
      | none =>
        have hfalse :
            (check_option_is_green avgOf o && (get_option_label o ol).isSome) = false := by
          rw [hg, hl]; rfl
        simp [detectScan, hg, hl, List.find?, hfalse, ih]

/-- C5 counterexample: with two affirmative (green) options the passive
detector does not return "no answer" — it returns the first option's label
even though the number of affirmative options is 2, not 1. -/
theorem c5_passive_detector_counterexample :
    detect_correct_answer c5Green [c5OptA, c5OptB] = some ("A") ∧
    ([c5OptA, c5OptB].countP (fun o => check_option_is_green c5Green o)) = 2 := by
  decide

/-- C5 (amended): the affirmative rule is exactly the claimed
green-dominance disjunction, but the passive detector returns the label of
the *first* affirmative option whose label resolves (scanning in list
order) and returns no answer iff no affirmative option yields a label —
uniqueness of the affirmative option is not required. -/
theorem c5_passive_detector_amended (avgOf : AvgColor) (options : List Element) :
    detect_correct_answer avgOf options =
      ((options.find? (fun o =>
          check_option_is_green avgOf o && (get_option_label o options).isSome)).bind
        (fun o => get_option_label o options)) ∧
    (∀ o b r g bl, get_element_bounds o = some b → avgOf b = some (r, g, bl) →
      (check_option_is_green avgOf o = true ↔
        ((g > r + 20 ∧ g > bl + 20 ∧ g > 80) ∨ (g > 150 ∧ g > r ∧ g > bl)))) := by
  constructor
  · unfold detect_correct_answer
    by_cases he : options.isEmpty = true
    · have hnil : options = [] := by
        cases options with
        | nil => rfl
        | cons a l => simp [List.isEmpty] at he
      subst hnil
      rfl
    · rw [if_neg he]
      exact detectScan_eq_find avgOf options options
  · intro o b r g bl hb ha
    have hgr : check_option_is_green avgOf o = is_green_avg r g bl := by
      unfold check_option_is_green
      rw [hb]
      show (match avgOf b with
        | none => false
        | some (r, g, bl) => is_green_avg r g bl) = is_green_avg r g bl
      rw [ha]
    rw [hgr]
    unfold is_green_avg
    simp only [Bool.or_eq_true, Bool.and_eq_true, decide_eq_true_eq]
    tauto

/-- C5 witness: the amended characterisation instantiated at a concrete
option list and colour oracle. -/
theorem c5_passive_detector_amended_witness :
    (detect_correct_answer c5Green [c5OptB] =
      (([c5OptB].find? (fun o =>
          check_option_is_green c5Green o && (get_option_label o [c5OptB]).isSome)).bind
        (fun o => get_option_label o [c5OptB]))) ∧
    (check_option_is_green c5Green c5OptB = true ↔
      (((200:Nat) > 10 + 20 ∧ (200:Nat) > 10 + 20 ∧ (200:Nat) > 80) ∨
        ((200:Nat) > 150 ∧ (200:Nat) > 10 ∧ (200:Nat) > 10))) :=
  ⟨(c5_passive_detector_amended c5Green [c5OptB]).1,
   (c5_passive_detector_amended c5Green [c5OptB]).2 c5OptB
     (100, 2000, 1100, 2080) 10 200 10 (by decide) rfl⟩

/-- C10 counterexample: the attribute `"1,2][3,4"` does not have the
standard `[x1,y1][x2,y2]` shape, yet `get_element_bounds` parses it to
`(1, 2, 3, 4)` — the "exactly when" of the claim fails. -/
theorem c10_bounds_parsing_counterexample :
    get_element_bounds c10BadElem = some (1, 2, 3, 4) ∧
    stdBoundsParse ("1,2][3,4") = none := by
  decide

/-- C10 (amended): bounds parsing is total and exception-free; every
attribute of the standard `[x1,y1][x2,y2]` form with integer coordinates
parses to exactly those coordinates, and a missing attribute, a
`"]["`-split not yielding exactly two parts, or a bracket-stripped part
that is not two comma-separated Python integers each yield `none` — but
the parser also accepts some non-standard shapes (see the counterexample),
so "exactly when" does not hold. -/
theorem c10_bounds_parsing_amended :
    (∀ (e : Element) (s : String) (x1 y1 x2 y2 : Int), e.boundsAttr = some s →
      stdBoundsParse s = some (x1, y1, x2, y2) →
      get_element_bounds e = some (x1, y1, x2, y2)) ∧
    (∀ e : Element, e.boundsAttr = none → get_element_bounds e = none) ∧
    (∀ (e : Element) (s : String), e.boundsAttr = some s →
      (splitBrk s.data).length ≠ 2 → get_element_bounds e = none) ∧
    (∀ (e : Element) (s : String) (p0 p1 : List Char), e.boundsAttr = some s →
      splitBrk s.data = [p0, p1] →
      parseCoordPair (removeCh '[' (String.mk p0)) = none ∨
        parseCoordPair (removeCh ']' (String.mk p1)) = none →
      get_element_bounds e = none) := by
  refine ⟨fun e s x1 y1 x2 y2 hattr hstd =>
    get_element_bounds_of_std s x1 y1 x2 y2 hstd e hattr, ?_, ?_, ?_⟩
  · intro e he
    unfold get_element_bounds
    rw [he]
  · intro e s he hlen
    unfold get_element_bounds
    rw [he]
    dsimp only
    by_cases hs : s = ("")
    · rw [if_pos hs]
    · rw [if_neg hs]
      rcases hsp : splitBrk s.data with _ | ⟨a, _ | ⟨b, _ | ⟨c, t⟩⟩⟩
      · rfl
      · rfl
      · rw [hsp] at hlen
        simp at hlen
      · rfl
  · intro e s p0 p1 he hsp hbad
    unfold get_element_bounds
    rw [he]
    dsimp only
    by_cases hs : s = ("")
    · rw [if_pos hs]
    · rw [if_neg hs, hsp]
      show (match parseCoordPair (removeCh '[' (String.mk p0)),
                  parseCoordPair (removeCh ']' (String.mk p1)) with
            | some (x1, y1), some (x2, y2) => some (x1, y1, x2, y2)
            | _, _ => none) = none
      rcases hbad with hb | hb
      · rcases parseCoordPair (removeCh ']' (String.mk p1)) with _ | ⟨a, b⟩ <;>
          rw [hb]
      · rcases parseCoordPair (removeCh '[' (String.mk p0)) with _ | ⟨a, b⟩ <;>
          rw [hb]

/-- C10 witness: the four cases at concrete inputs — a standard attribute
parses to its coordinates; a missing attribute, a one-part `"]["`-split
and a part with a non-integer coordinate each yield `none`. -/
theorem c10_bounds_parsing_amended_witness :
    stdBoundsParse ("[100,2600][300,2700]") = some (100, 2600, 300, 2700) ∧
    get_element_bounds c10GoodElem = some (100, 2600, 300, 2700) ∧
    get_element_bounds c10NoneElem = none ∧
    get_element_bounds c10OnePartElem = none ∧
    get_element_bounds c10BadIntElem = none :=
  ⟨by decide,
   c10_bounds_parsing_amended.1 c10GoodElem ("[100,2600][300,2700]")
     100 2600 300 2700 rfl (by decide),
   c10_bounds_parsing_amended.2.1 c10NoneElem rfl,
   c10_bounds_parsing_amended.2.2.1 c10OnePartElem ("[1,2]") rfl (by decide),
   c10_bounds_parsing_amended.2.2.2 c10BadIntElem ("[a,b][3,4]")
     (("[a,b").data) (("3,4]").data) rfl (by decide) (Or.inl (by decide))⟩

/-- C4 (amended): when an option element carries an explicit glyph as its
stripped content-desc, the detector's `get_option_label` and the
extractor's method-1 labeller agree on that glyph; `capture_question`
itself enforces no agreement between the detected answer label and the
stored options' labels (see the counterexample). -/
theorem c4_answer_label_amended (e : Element) (opts : List Element) (l : String)
    (hcd : pyStrip e.contentDesc = l) (hl : l ∈ optionGlyphs) :
    get_option_label e opts = some l ∧
    extractOptionLabel1 (pyStrip e.contentDesc) (pyStrip e.text) = some l := by
  constructor
  · unfold get_option_label
    rw [hcd, if_pos hl]
  · unfold extractOptionLabel1
    rw [hcd, if_pos hl]

/-- C4 witness: the agreement instantiated at a glyph-labelled element. -/
theorem c4_answer_label_amended_witness :
    pyStrip c4GlyphElem.contentDesc = ("A") ∧ ("A") ∈ optionGlyphs ∧
    get_option_label c4GlyphElem [] = some ("A") ∧
    extractOptionLabel1 (pyStrip c4GlyphElem.contentDesc)
      (pyStrip c4GlyphElem.text) = some ("A") :=
  ⟨by decide, by decide,
   (c4_answer_label_amended c4GlyphElem [] ("A") (by decide) (by decide)).1,
   (c4_answer_label_amended c4GlyphElem [] ("A") (by decide) (by decide)).2⟩

set_option maxRecDepth 100000 in
/-- C4 counterexample: a full `capture_question` run on a static page whose
options carry word-level glyph mentions writes a record whose
`correct_answer` is `"A"` (positional labelling during detection) while
the stored options are labelled `"B"` and `"C"` (word-containment
labelling during extraction) — the answer label is not among the record's
option labels. -/
theorem c4_answer_label_counterexample :
    ((capture_question c4Env demoSt).written.map (fun q => q.correct_answer)) =
      some (some ("A")) ∧
    ((capture_question c4Env demoSt).written.map
        (fun q => q.options.map (fun o => o.label))) = some [("B"), ("C")] ∧
    ¬ (("A") ∈ [("B"), ("C")]) := by
  decide

set_option maxRecDepth 100000 in
/-- C3: the idempotent-skip path tests the located Next element with
`if next_button:` — `ElementTree` truthiness, which is false for a
childless element (the source itself warns about exactly this at its line
1572 and uses `is None` in the later path).  With the record for (A, 7)
present and a perfectly locatable leaf Next button, the skip path treats
the button as missing: it issues no tap at all, writes nothing, and
reports failure instead of advancing. -/
theorem c3_idempotent_skip_code_bug :
    find_next_button [c3NumElem, c3NextLeaf] = some c3NextLeaf ∧
    c3NextLeaf.clickable = true ∧
    (get_element_bounds c3NextLeaf).isSome = true ∧
    c3Env.recordExists ("A") 7 = true ∧
    (capture_question c3Env demoSt).success = false ∧
    (capture_question c3Env demoSt).written = none ∧
    (capture_question c3Env demoSt).taps = [] := by
  decide

/-- C2 (amended): an attempt that reaches the option-probing step and finds
zero options is a hard failure — `capture_question` reports `False` and
writes no record.  (Absence of a question-text element, or a single
option, does not abort the attempt: see the counterexample.) -/
theorem c2_extraction_failure_amended (env : CaptureEnv) (st : CrawlState)
    (h1 : is_in_question_page (env.surfaces 0).tree = true)
    (h2 : has_ad (env.surfaces 0).tree = false)
    (h3 : st.current_part = none ∨
      ∃ p, st.current_part = some p ∧
        (extract_question_number_from_page (env.surfaces 0).tree = none ∨
          ∃ n, extract_question_number_from_page (env.surfaces 0).tree = some n ∧
            env.recordExists p n = false))
    (h4 : find_options (env.surfaces 0).tree = []) :
    (capture_question env st).success = false ∧
    (capture_question env st).written = none := by
  have hprobe : ∀ (st' : CrawlState) (m : Machine),
      captureProbe (env.surfaces 0).tree st' m =
        mkOutcome false none [] st' m := by
    intro st' m
    unfold captureProbe
    rw [h4]
    rfl
  have hskip : ∀ m : Machine, m.env = env →
      (captureSkipCheck (env.surfaces 0).tree st m).success = false ∧
      (captureSkipCheck (env.surfaces 0).tree st m).written = none := by
    intro m hm
    unfold captureSkipCheck
    rcases h3 with hp | ⟨p, hp, hn⟩
    · rw [hp]
      try dsimp only
      rw [hprobe st m]
      exact ⟨rfl, rfl⟩
    · rw [hp]
      try dsimp only
      rcases hn with hn | ⟨n, hn, hre⟩
      · rw [hn]
        try dsimp only
        rw [hprobe st m]
        exact ⟨rfl, rfl⟩
      · rw [hn]
        try dsimp only
        have hcond : ¬ (m.env.recordExists p n = true) := by
          rw [hm, hre]
          simp
        rw [if_neg hcond]
        try dsimp only
        rw [hprobe _ m]
        exact ⟨rfl, rfl⟩
  have had : ∀ m : Machine, m.env = env →
      (captureAdCheck (env.surfaces 0).tree st m).success = false ∧
      (captureAdCheck (env.surfaces 0).tree st m).written = none := by
    intro m hm
    unfold captureAdCheck
    have h2' : ¬ (has_ad (env.surfaces 0).tree = true) := by
      rw [h2]
      simp
    rw [if_neg h2']
    exact hskip m hm
  have hmain : capture_question env st =
      captureAdCheck (env.surfaces 0).tree st { env := env, time := 1, taps := [] } := by
    unfold capture_question Machine.poll
    dsimp only
    rw [if_pos h1]
  rw [hmain]
  exact had { env := env, time := 1, taps := [] } rfl

set_option maxRecDepth 100000 in
/-- C2 counterexample: (a) with no element qualifying as question text the
attempt still writes a record, with `question_text = ""`; (b) with exactly
one option element found the attempt still writes a record carrying that
single option.  Neither condition is the hard failure the claim states. -/
theorem c2_extraction_failure_counterexample :
    extract_question_text [demoNumElem, demoOptB, demoOptC] = ("") ∧
    ((capture_question c2EnvNoText demoSt).written.map
      (fun q => q.question_text)) = some ("") ∧
    (find_options [demoNumElem, demoQElem, demoSingleOpt]).length = 1 ∧
    ((capture_question c2EnvOneOption demoSt).written.map
      (fun q => q.options.length)) = some 1 := by
  decide

/-- C2 witness: the amended statement at a question page with zero
options. -/
theorem c2_extraction_failure_amended_witness :
    (capture_question c2EnvNoOptions demoSt).success = false ∧
    (capture_question c2EnvNoOptions demoSt).written = none :=
  c2_extraction_failure_amended c2EnvNoOptions demoSt (by decide) (by decide)
    (Or.inr ⟨("A"), rfl, Or.inr ⟨5, by decide, rfl⟩⟩) (by decide)

/-- C8 counterexample: a completion-triggered partition switch (A → B) does
not reset the consecutive-failure counter — it stays at 2, while the claim
says the counter is reset on every partition switch. -/
theorem c8_failure_budget_counterexample :
    (runStep c8Env none 0 c8St).current_part = some ("B") ∧
    (runStep c8Env none 0 c8St).consecutive_failures = 2 := by
  decide

/-- C8 (amended): with the partition-entry navigation succeeding, the crawl
loop resets the failure counter on every successful capture and on every
failure-triggered partition switch (a completion-triggered switch leaves
the counter unchanged); on the third consecutive failure it switches
A → B → C, or terminates when the list is exhausted, and it never starts a
capture attempt with three accumulated failures. -/
theorem c8_failure_budget_amended (env : RunEnv) (st : RunState) (p : String)
    (i : Nat) (hh : st.halted = false) (hp : st.current_part = some p)
    (he : ∀ j q, env.enterPartOk j q = true) :
    (env.partCompleted i = false → env.captureOk i = true →
      (runStep env none i st).consecutive_failures = 0 ∧
      (runStep env none i st).count = st.count + 1 ∧
      (runStep env none i st).halted = false ∧
      (runStep env none i st).current_part = some p) ∧
    (env.partCompleted i = false → env.captureOk i = false →
      st.consecutive_failures = 2 →
      ((p = ("A") → (runStep env none i st).current_part = some ("B") ∧
          (runStep env none i st).consecutive_failures = 0 ∧
          (runStep env none i st).halted = false) ∧
       (p = ("B") → (runStep env none i st).current_part = some ("C") ∧
          (runStep env none i st).consecutive_failures = 0 ∧
          (runStep env none i st).halted = false) ∧
       (p = ("C") → (runStep env none i st).halted = true))) ∧
    (env.partCompleted i = false → env.captureOk i = false →
      st.consecutive_failures < 2 →
      (runStep env none i st).consecutive_failures = st.consecutive_failures + 1 ∧
      (runStep env none i st).current_part = some p ∧
      (runStep env none i st).halted = false) ∧
    (env.partCompleted i = true →
      (runStep env none i st).consecutive_failures = st.consecutive_failures) ∧
    (st.consecutive_failures ≤ 2 → (runStep env none i st).halted = false →
      (runStep env none i st).consecutive_failures ≤ 2) := by
  have hsw : ∀ (r : String), nextPartOf st.current_part = some r →
      (switch_to_next_part env i st).1 = true ∧
      (switch_to_next_part env i st).2.current_part = some r ∧
      (switch_to_next_part env i st).2.consecutive_failures =
        st.consecutive_failures ∧
      (switch_to_next_part env i st).2.halted = st.halted ∧
      (switch_to_next_part env i st).2.count = st.count := by
    intro r hr
    unfold switch_to_next_part
    rw [hr]
    try dsimp only
    rw [he i r]
    try dsimp only
    exact ⟨rfl, rfl, rfl, rfl, rfl⟩
  have hswC : st.current_part = some ("C") →
      switch_to_next_part env i st = (false, st) := by
    intro hc
    unfold switch_to_next_part
    rw [hc]
    rfl
  have hrs : runStep env none i st =
      (if env.partCompleted i = true then
        (if (switch_to_next_part env i st).1 = true
         then (switch_to_next_part env i st).2
         else { (switch_to_next_part env i st).2 with halted := true })
       else if env.captureOk i = true then
         { st with consecutive_failures := 0, count := st.count + 1 }
       else if st.consecutive_failures + 1 ≥ 3 then
         (if (switch_to_next_part env i st).1 = true
          then { (switch_to_next_part env i st).2 with consecutive_failures := 0 }
          else { (switch_to_next_part env i st).2 with halted := true, consecutive_failures := st.consecutive_failures + 1 })
       else { st with consecutive_failures := st.consecutive_failures + 1 }) := by
    unfold runStep
    rw [if_neg (by simp [hh])]
    rw [if_neg (by simp : ¬((match (none : Option Nat) with
      | some mq => mq ≠ 0 && decide (st.count ≥ mq)
      | none => false) = true))]
  refine ⟨?_, ?_, ?_, ?_, ?_⟩
  · intro hpc hok
    rw [hrs, if_neg (by simp [hpc]), if_pos hok]
    exact ⟨rfl, rfl, hh, hp⟩
  · intro hpc hok hcf
    refine ⟨?_, ?_, ?_⟩
    · intro hpa
      have hnp : nextPartOf st.current_part = some ("B") := by
        rw [hp, hpa]
        decide
      rcases hsw ("B") hnp with ⟨hs1, hs2, _, hs4, _⟩
      rw [hrs, if_neg (by simp [hpc]), if_neg (by simp [hok]),
          if_pos (by rw [hcf] : st.consecutive_failures + 1 ≥ 3),
          if_pos hs1]
      exact ⟨hs2, rfl, hs4.trans hh⟩
    · intro hpb
      have hnp : nextPartOf st.current_part = some ("C") := by
        rw [hp, hpb]
        decide
      rcases hsw ("C") hnp with ⟨hs1, hs2, _, hs4, _⟩
      rw [hrs, if_neg (by simp [hpc]), if_neg (by simp [hok]),
          if_pos (by rw [hcf] : st.consecutive_failures + 1 ≥ 3),
          if_pos hs1]
      exact ⟨hs2, rfl, hs4.trans hh⟩
    · intro hpc'
      have hc : st.current_part = some ("C") := by rw [hp, hpc']
      rw [hrs, if_neg (by simp [hpc]), if_neg (by simp [hok]),
          if_pos (by rw [hcf] : st.consecutive_failures + 1 ≥ 3),
          hswC hc, if_neg (by simp)]
  · intro hpc hok hcf
    rw [hrs, if_neg (by simp [hpc]), if_neg (by simp [hok]),
        if_neg (by omega : ¬(st.consecutive_failures + 1 ≥ 3))]
    exact ⟨rfl, hp, hh⟩
  · intro hpc
    rw [hrs, if_pos hpc]
    by_cases hs : (switch_to_next_part env i st).1 = true
    · rw [if_pos hs]
      cases hnp : nextPartOf st.current_part with
      | none =>
        exfalso
        unfold switch_to_next_part at hs
        rw [hnp] at hs
        simp at hs
      | some r => exact (hsw r hnp).2.2.1
    · rw [if_neg hs]
      show (switch_to_next_part env i st).2.consecutive_failures =
        st.consecutive_failures
      cases hnp : nextPartOf st.current_part with
      | none =>
        unfold switch_to_next_part
        rw [hnp]
      | some r => exact (hsw r hnp).2.2.1
  · intro hcf hhf
    by_cases hpc : env.partCompleted i = true
    · rw [hrs, if_pos hpc] at hhf ⊢
      by_cases hs : (switch_to_next_part env i st).1 = true
      · rw [if_pos hs] at hhf ⊢
        cases hnp : nextPartOf st.current_part with
        | none =>
          exfalso
          unfold switch_to_next_part at hs
          rw [hnp] at hs
          simp at hs
        | some r =>
          rw [(hsw r hnp).2.2.1]
          exact hcf
      · rw [if_neg hs] at hhf ⊢
        simp at hhf
    · by_cases hok : env.captureOk i = true
      · rw [hrs, if_neg hpc, if_pos hok]
        simp
      · by_cases h3 : st.consecutive_failures + 1 ≥ 3
        · rw [hrs, if_neg hpc, if_neg hok, if_pos h3] at hhf ⊢
          by_cases hs : (switch_to_next_part env i st).1 = true
          · rw [if_pos hs]
            simp
          · rw [if_neg hs] at hhf
            simp at hhf
        · rw [hrs, if_neg hpc, if_neg hok, if_neg h3]
          show st.consecutive_failures + 1 ≤ 2
          omega

/-- C8 witness: the third consecutive failure on partition A switches to B
with the counter reset. -/
theorem c8_failure_budget_amended_witness :
    (runStep c8EnvFail none 0 c8St).current_part = some ("B") ∧
    (runStep c8EnvFail none 0 c8St).consecutive_failures = 0 ∧
    (runStep c8EnvFail none 0 c8St).halted = false :=
  ((c8_failure_budget_amended c8EnvFail c8St ("A") 0 rfl rfl
    (fun _ _ => rfl)).2.1 rfl rfl rfl).1 rfl

theorem mergeGo_eq : ∀ (fs : List (String × QuestionData)) (seen : List String)
    (counter : Nat),
    mergeGo seen counter fs =
      (idsFrom counter (dedupByHash seen fs),
       mapFrom counter (dedupByHash seen fs)) := by
  intro fs
  induction fs with
  | nil => intro seen counter; rfl
  | cons f rest ih =>
    intro seen counter
    obtain ⟨s, q⟩ := f
    by_cases hmem : calculate_question_hash q ∈ seen
    · show mergeGo seen counter ((s, q) :: rest) = _
      unfold mergeGo dedupByHash
      try dsimp only
      rw [if_pos hmem, if_pos hmem]
      exact ih seen counter
    · show mergeGo seen counter ((s, q) :: rest) = _
      unfold mergeGo dedupByHash
      try dsimp only
      rw [if_neg hmem, if_neg hmem]
      rw [ih (calculate_question_hash q :: seen) (counter + 1)]
      rfl

theorem merge_questions_eq (files : List (String × QuestionData)) :
    merge_questions files =
      (idsFrom 1 (survivorsOf files), mapFrom 1 (survivorsOf files)) := by
  unfold merge_questions survivorsOf
  by_cases he : files.isEmpty = true
  · have hnil : files = [] := by
      cases files with
      | nil => rfl
      | cons a l => simp [List.isEmpty] at he
    subst hnil
    rfl
  · rw [if_neg he]
    exact mergeGo_eq (sortFiles files) [] 1

theorem digitChar_toNat (d : Nat) (h : d < 10) : (digitChar d).toNat = 48 + d := by
  interval_cases d <;> rfl

theorem digitsVal_natDigits : ∀ (fuel n : Nat), n < 10 ^ fuel →
    digitsVal (natDigits fuel n) = n := by
  intro fuel
  induction fuel with
  | zero =>
    intro n h
    interval_cases n
    rfl
  | succ f ih =>
    intro n h
    unfold natDigits
    by_cases h10 : n < 10
    · rw [if_pos h10]
      show 10 * 0 + ((digitChar n).toNat - 48) = n
      rw [digitChar_toNat n h10]
      omega
    · rw [if_neg h10]
      unfold digitsVal
      rw [List.foldl_append]
      have hdiv : n / 10 < 10 ^ f := by
        rw [Nat.div_lt_iff_lt_mul (by norm_num : 0 < 10)]
        calc n < 10 ^ (f + 1) := h
        _ = 10 ^ f * 10 := by rw [pow_succ]
      have hv := ih (n / 10) hdiv
      unfold digitsVal at hv
      rw [hv]
      show 10 * (n / 10) + ((digitChar (n % 10)).toNat - 48) = n
      rw [digitChar_toNat (n % 10) (Nat.mod_lt _ (by norm_num))]
      omega

theorem digitsVal_cons_zero (t : List Char) :
    digitsVal ('0' :: t) = digitsVal t := rfl

theorem digitsVal_replicate_zero (k : Nat) (ds : List Char) :
    digitsVal (List.replicate k '0' ++ ds) = digitsVal ds := by
  induction k with
  | zero => rfl
  | succ kk ih =>
    rw [List.replicate_succ, List.cons_append, digitsVal_cons_zero, ih]

theorem digitsVal_format03 (n : Nat) : digitsVal (format03 n).data = n := by
  unfold format03
  show digitsVal (List.replicate (3 - (natDigits (n + 1) n).length) '0' ++
    natDigits (n + 1) n) = n
  rw [digitsVal_replicate_zero]
  exact digitsVal_natDigits (n + 1) n
    (lt_of_lt_of_le (Nat.lt_pow_self (by norm_num) n)
      (Nat.pow_le_pow_right (by norm_num) (Nat.le_succ n)))

theorem format03_inj (a b : Nat) (h : format03 a = format03 b) : a = b := by
  have hd := congrArg (fun s => digitsVal s.data) h
  simpa [digitsVal_format03] using hd

theorem canonicalId_inj (a b : Nat)
    (h : ("question-") ++ format03 a = ("question-") ++ format03 b) : a = b := by
  apply format03_inj
  have hd := congrArg String.data h
  have hd' : ("question-").data ++ (format03 a).data =
      ("question-").data ++ (format03 b).data := hd
  have := List.append_cancel_left hd'
  cases hfa : format03 a with
  | mk la =>
    cases hfb : format03 b with
    | mk lb =>
      rw [hfa, hfb] at this
      exact congrArg String.mk this

theorem idsFrom_map_id : ∀ (l : List (String × QuestionData)) (c : Nat),
    (idsFrom c l).map (fun fq => fq.id) =
      (List.range l.length).map (fun i => ("question-") ++ format03 (c + i)) := by
  intro l
  induction l with
  | nil => intro c; rfl
  | cons f rest ih =>
    intro c
    rw [List.length_cons, List.range_succ_eq_map]
    simp only [idsFrom, List.map_cons, List.map_map]
    congr 1
    rw [ih (c + 1)]
    apply List.map_congr_left
    intro i _
    show ("question-") ++ format03 (c + 1 + i) = ("question-") ++ format03 (c + (i + 1))
    congr 2
    omega

theorem findq_append_some {α : Type} {p : α → Bool} {l1 l2 : List α} {a : α}
    (h : l1.find? p = some a) : (l1 ++ l2).find? p = some a := by
  induction l1 with
  | nil => cases h
  | cons x r ih =>
    rw [List.cons_append]
    cases hx : p x with
    | true =>
      rw [List.find?_cons_of_pos _ hx] at h ⊢
      exact h
    | false =>
      rw [List.find?_cons_of_neg _ (by rw [hx]; simp)] at h ⊢
      exact ih h

theorem findq_append_none {α : Type} {p : α → Bool} {l1 l2 : List α}
    (h : l1.find? p = none) : (l1 ++ l2).find? p = l2.find? p := by
  induction l1 with
  | nil => rfl
  | cons x r ih =>
    rw [List.cons_append]
    cases hx : p x with
    | true =>
      rw [List.find?_cons_of_pos _ hx] at h
      cases h
    | false =>
      rw [List.find?_cons_of_neg _ (by rw [hx]; simp)] at h ⊢
      exact ih h

theorem mapFrom_keys : ∀ (l : List (String × QuestionData)) (c : Nat)
    (x : String × String), x ∈ mapFrom c l → x.1 ∈ l.map (fun f => f.2.id) := by
  intro l
  induction l with
  | nil => intro c x hx; cases hx
  | cons f rest ih =>
    intro c x hx
    rw [List.map_cons]
    rcases List.mem_cons.mp hx with rfl | hx'
    · exact List.mem_cons_self _ _
    · exact List.mem_cons_of_mem _ (ih (c + 1) x hx')

theorem mapFrom_lookup : ∀ (l : List (String × QuestionData)) (c i : Nat)
    (f : String × QuestionData), l.get? i = some f →
    (l.map (fun g => g.2.id)).Nodup →
    dictLookup (mapFrom c l) f.2.id = some (("question-") ++ format03 (c + i)) := by
  intro l
  induction l with
  | nil => intro c i f h _; cases h
  | cons g rest ih =>
    intro c i f hget hnd
    rw [List.map_cons, List.nodup_cons] at hnd
    cases i with
    | zero =>
      have hf : f = g := by
        rw [List.get?_cons_zero] at hget
        injection hget with hh
        exact hh.symm
      subst hf
      unfold dictLookup
      show ((((f.2.id, ("question-") ++ format03 c) :: mapFrom (c + 1) rest).reverse).find?
        (fun p => p.1 = f.2.id)).map (fun p => p.2) =
        some (("question-") ++ format03 (c + 0))
      rw [List.reverse_cons]
      have hnone : ((mapFrom (c + 1) rest).reverse.find?
          (fun p => decide (p.1 = f.2.id))) = none := by
        rw [List.find?_eq_none]
        intro x hx
        have hk := mapFrom_keys rest (c + 1) x (List.mem_reverse.mp hx)
        simp only [decide_eq_true_eq]
        intro heq
        rw [heq] at hk
        exact hnd.1 hk
      rw [findq_append_none hnone]
      rw [List.find?_cons_of_pos _ (by simp)]
      rw [Nat.add_zero]
      rfl
    | succ j =>
      rw [List.get?_cons_succ] at hget
      have hmem : f.2.id ∈ rest.map (fun g => g.2.id) := by
        have := List.get?_mem hget
        exact List.mem_map_of_mem _ this
      have hne : ¬ (g.2.id = f.2.id) := by
        intro heq
        rw [heq] at hnd
        exact hnd.1 hmem
      unfold dictLookup
      show ((((g.2.id, ("question-") ++ format03 c) :: mapFrom (c + 1) rest).reverse).find?
        (fun p => p.1 = f.2.id)).map (fun p => p.2) =
        some (("question-") ++ format03 (c + (j + 1)))
      rw [List.reverse_cons]
      have hih := ih (c + 1) j f hget hnd.2
      unfold dictLookup at hih
      cases hfind : ((mapFrom (c + 1) rest).reverse.find?
          (fun p => decide (p.1 = f.2.id))) with
      | none =>
        rw [hfind] at hih
        cases hih
      | some entry =>
        rw [findq_append_some hfind]
        rw [hfind] at hih
        simp only [Option.map] at hih ⊢
        rw [hih]
        have harith : c + 1 + j = c + (j + 1) := by omega
        rw [harith]

set_option maxRecDepth 1000000 in
/-- C1 counterexample: two records whose question texts differ only in
letter case receive *different* deduplication digests (the key is the MD5
of the raw, un-normalised texts), and `merge_questions` keeps both — the
claimed normalisation before hashing does not exist. -/
theorem c1_dedup_counterexample :
    c1Qstop.question_text ≠ c1Qlower.question_text ∧
    pyLower c1Qstop.question_text = pyLower c1Qlower.question_text ∧
    c1Qstop.options = c1Qlower.options ∧
    calculate_question_hash c1Qstop ≠ calculate_question_hash c1Qlower ∧
    (merge_questions [(("part-a-question-001"), c1Qstop),
      (("part-a-question-002"), c1Qlower)]).1.length = 2 := by
  refine ⟨by decide, rfl, rfl, by decide, rfl⟩

/-- C1 (amended): the deduplication key is the MD5 digest of the
`"|"`-join of the *raw* question text and option texts — no lower-casing,
trimming or punctuation stripping — so records with identical raw texts
receive the same digest; and the merge keeps exactly the first-seen record
per digest (in the stable sort order), dropping every later record whose
digest was already seen. -/
theorem c1_dedup_amended :
    (∀ q q' : QuestionData, q.question_text = q'.question_text →
      q.options.map (fun o => o.text) = q'.options.map (fun o => o.text) →
      calculate_question_hash q = calculate_question_hash q') ∧
    (∀ files : List (String × QuestionData),
      (merge_questions files).1 = idsFrom 1 (dedupByHash [] (sortFiles files))) := by
  constructor
  · intro q q' hq hop
    unfold calculate_question_hash
    rw [hq, hop]
  · intro files
    rw [merge_questions_eq files]
    rfl

set_option maxRecDepth 1000000 in
/-- C1 witness: raw-text-equal records share a digest, and the merge of the
two-shard input is its canonical numbering of the first-seen survivors. -/
theorem c1_dedup_amended_witness :
    calculate_question_hash c1Qstop = calculate_question_hash c1Qcopy ∧
    (merge_questions c7Files).1 = idsFrom 1 (dedupByHash [] (sortFiles c7Files)) :=
  ⟨c1_dedup_amended.1 c1Qstop c1Qcopy rfl rfl, c1_dedup_amended.2 c7Files⟩

/-- C7: `merge_questions` assigns ids `question-001`, `question-002`, …
sequentially and densely starting at 1, in the stable
`(partition, numeric ordinal)` sort order over the first-seen surviving
records; the resulting ids are pairwise distinct, and (when the surviving
records' old ids are distinct, as `(partition, ordinal)`-derived ids are)
the id-remap table maps each surviving record's old id to its canonical
id. -/
theorem c7_canonical_ids (files : List (String × QuestionData))
    (hnd : ((survivorsOf files).map (fun f => f.2.id)).Nodup) :
    ((merge_questions files).1.map (fun q => q.id) =
      (List.range (survivorsOf files).length).map
        (fun i => ("question-") ++ format03 (1 + i))) ∧
    ((merge_questions files).1.map (fun q => q.id)).Nodup ∧
    (merge_questions files).1 = idsFrom 1 (survivorsOf files) ∧
    (∀ (i : Nat) (f : String × QuestionData),
      (survivorsOf files).get? i = some f →
      dictLookup (merge_questions files).2 f.2.id =
        some (("question-") ++ format03 (1 + i))) := by
  have hm := merge_questions_eq files
  have hids : (merge_questions files).1.map (fun q => q.id) =
      (List.range (survivorsOf files).length).map
        (fun i => ("question-") ++ format03 (1 + i)) := by
    rw [hm]
    exact idsFrom_map_id (survivorsOf files) 1
  refine ⟨hids, ?_, ?_, ?_⟩
  · rw [hids]
    apply List.Nodup.map
    · intro a b hab
      have := canonicalId_inj (1 + a) (1 + b) hab
      omega
    · exact List.nodup_range _
  · rw [hm]
  · intro i f hget
    rw [hm]
    exact mapFrom_lookup (survivorsOf files) 1 i f hget hnd

set_option maxRecDepth 1000000 in
/-- C7 witness: the two-shard input receives ids `question-001` and
`question-002`, and the remap sends the second surviving old id to
`question-002`. -/
theorem c7_canonical_ids_witness :
    ((survivorsOf c7Files).map (fun f => f.2.id)).Nodup ∧
    ((merge_questions c7Files).1.map (fun q => q.id) =
      (List.range (survivorsOf c7Files).length).map
        (fun i => ("question-") ++ format03 (1 + i))) ∧
    dictLookup (merge_questions c7Files).2 ("part-a-question-002") =
      some (("question-") ++ format03 2) := by
  have hnd : ((survivorsOf c7Files).map (fun f => f.2.id)).Nodup := by
    have hmap : (survivorsOf c7Files).map (fun f => f.2.id) =
        [("part-a-question-001"), ("part-a-question-002")] := rfl
    rw [hmap]
    decide
  exact ⟨hnd, (c7_canonical_ids c7Files hnd).1,
    (c7_canonical_ids c7Files hnd).2.2.2 1
      ((("part-a-question-002"), c1Qlower)) rfl⟩
